import Mathlib

/-!
Verification of the calendar / Julian-Day conversion core and the ΔT model
evaluators of `src/core/StelUtils.cpp` (Stellarium).  C `long`/`int` values are
embedded as `ℤ` (no overflow in the verified ranges), C `double` values as `ℚ`
(exact real arithmetic), C integer division as truncated division `cdiv`.
-/

namespace StelUtils

/-- C99 integer division: truncation toward zero.  All divisors appearing in
the embedded code are positive constants, for which truncated division of a
nonnegative dividend agrees with Euclidean division and of a negative dividend
is the negated Euclidean division of the negated dividend. -/
def cdiv (a b : ℤ) : ℤ := if 0 ≤ a then a / b else -((-a) / b)

/-- C99 remainder: `a % b = a - b * (a trunc-div b)`, sign of the dividend. -/
def cmod (a b : ℤ) : ℤ := a - b * cdiv a b

/-- Embedding of the month-length switch of `numberOfDaysInMonthInYear` for the
months 1..12 together with the `default` case (returning 0).  February applies
the Gregorian century leap rule only for `year > 1582` and the plain
divisible-by-4 rule otherwise, exactly as in the source. -/
def dimVal (month year : ℤ) : ℤ :=
  if month = 1 ∨ month = 3 ∨ month = 5 ∨ month = 7 ∨ month = 8 ∨ month = 10 ∨ month = 12 then 31
  else if month = 4 ∨ month = 6 ∨ month = 9 ∨ month = 11 then 30
  else if month = 2 then
    if 1582 < year then
      if cmod year 4 = 0 then
        if cmod year 100 = 0 then
          if cmod year 400 = 0 then 29 else 28
        else 29
      else 28
    else
      if cmod year 4 = 0 then 29 else 28
  else 0

/-- `numberOfDaysInMonthInYear` from `StelUtils.cpp`.  The source recurses once
for the alias months: `case 0` returns `numberOfDaysInMonthInYear(12, year-1)`
and `case 13` returns `numberOfDaysInMonthInYear(1, year+1)`; since months 12
and 1 are handled by the plain switch, that single recursion step is inlined
through `dimVal`. -/
def numberOfDaysInMonthInYear (month year : ℤ) : ℤ :=
  if month = 0 then dimVal 12 (year - 1)
  else if month = 13 then dimVal 1 (year + 1)
  else dimVal month year

/-- Helper bounds for the rollover termination and validity arguments: inside
the month window `[1, 12]` the switch returns at least 28 days, outside it
(and off the alias cases) it returns 0. -/
theorem dimVal_window (om oy : ℤ) :
    (1 ≤ om ∧ om ≤ 12 → 28 ≤ dimVal om oy) ∧ ((om < 1 ∨ 12 < om) → dimVal om oy = 0) := by
  unfold dimVal
  split_ifs <;> omega

/-- `numberOfDaysInMonthInYear` is at least 28 on the extended month window
`[0, 13]` (the alias months included) and 0 outside it. -/
theorem dim_window (om oy : ℤ) :
    (0 ≤ om ∧ om ≤ 13 → 28 ≤ numberOfDaysInMonthInYear om oy) ∧
    ((om < 0 ∨ 13 < om) → numberOfDaysInMonthInYear om oy = 0) := by
  unfold numberOfDaysInMonthInYear
  have h12 := dimVal_window 12 (oy - 1)
  have h1 := dimVal_window 1 (oy + 1)
  have hm := dimVal_window om oy
  split_ifs <;> constructor <;> intro h <;> omega

/-- Modelled from the spec: the Qt4 `QDate` collaborator's leap-year rule.
`dateToJD` "uses the proleptic Gregorian calendar for dates on/after 1582-10-15
and the proleptic Julian calendar before it"; QDate applies the Gregorian
century rule from 1582 on and the Julian divisible-by-4 rule before, shifting
years `< 1` up by one because QDate has no year zero. -/
def qdateIsLeapYear (y : ℤ) : Bool :=
  if y < 1582 then
    (if y < 1 then cmod (y + 1) 4 = 0 else cmod y 4 = 0 : Bool)
  else
    (cmod y 4 = 0 ∧ (cmod y 100 ≠ 0 ∨ cmod y 400 = 0) : Bool)

/-- Modelled from the spec: days in a month under the `QDate` calendar. -/
def qdateDaysInMonth (m y : ℤ) : ℤ :=
  if m = 2 then (if qdateIsLeapYear y then 29 else 28)
  else if m = 4 ∨ m = 6 ∨ m = 9 ∨ m = 11 then 30
  else 31

/-- Modelled from the spec: `QDate::isValid(y, m, d)` for the hybrid
Julian/Gregorian calendar — no year zero, years from -4713 on, months 1..12,
days within the month, and no date inside the 1582-10-05..14 reform gap. -/
def qdateIsValid (y m d : ℤ) : Bool :=
  (¬(y = 0) ∧ -4713 ≤ y ∧ 1 ≤ m ∧ m ≤ 12 ∧ 1 ≤ d ∧ d ≤ qdateDaysInMonth m y ∧
    ¬(y = 1582 ∧ m = 10 ∧ 4 < d ∧ d < 15) : Bool)

/-- Modelled from the spec: `QDate::toJulianDay` on the Gregorian side
(dates on/after 1582-10-15), the Fliegel–Van Flandern day-number formula with
C truncated division. -/
def gregJDN (y m d : ℤ) : ℤ :=
  cdiv (1461 * (y + 4800 + cdiv (m - 14) 12)) 4
    + cdiv (367 * (m - 2 - 12 * cdiv (m - 14) 12)) 12
    - cdiv (3 * (cdiv (y + 4900 + cdiv (m - 14) 12) 100)) 4
    + d - 32075

/-- Modelled from the spec: `QDate::toJulianDay` on the Julian side
(dates on/before 1582-10-04). -/
def julJDN (y m d : ℤ) : ℤ :=
  let a := cdiv (14 - m) 12
  let y2 := y + 4800 - a
  let m2 := m + 12 * a - 3
  d + cdiv (153 * m2 + 2) 5 + 365 * y2 + cdiv y2 4 - 32083

/-- Modelled from the spec: `QDate::toJulianDay` for the hybrid calendar with
the standard 1582-10-15 cutover (0 inside the reform gap, which `qdateIsValid`
already excludes). -/
def qdateToJulianDay (y m d : ℤ) : ℤ :=
  if 1582 < y ∨ (y = 1582 ∧ (10 < m ∨ (m = 10 ∧ 15 ≤ d))) then gregJDN y m d
  else if y < 1582 ∨ (y = 1582 ∧ (m < 10 ∨ (m = 10 ∧ d ≤ 4))) then julJDN y m d
  else 0

/-- `getJDFromDate` from `StelUtils.cpp`.  The fractional day is
`h/24 + min/1440 + s/86400 - 0.5`; a `QDate`-valid day (with astronomical
years `≤ 0` shifted down by one) goes through `QDate::toJulianDay`, anything
else through the Numerical Recipes `julday` algorithm with its explicit
floor-adjustments for negative years.  Returns the C `(bool, *newjd)` pair. -/
def getJDFromDate (y m d h mi s : ℤ) : Bool × ℚ :=
  let deltaTime : ℚ := (h : ℚ) / 24 + (mi : ℚ) / (24 * 60) + (s : ℚ) / (24 * 60 * 60) - 1/2
  let yq := if y ≤ 0 then y - 1 else y
  if qdateIsValid yq m d then
    (true, (qdateToJulianDay yq m d : ℚ) + deltaTime)
  else
    let jy0 := y
    let jy := if 2 < m then jy0 else jy0 - 1
    let jm := if 2 < m then m + 1 else m + 13
    let laa0 := cdiv (1461 * jy) 4
    let laa := if jy < 0 ∧ cmod jy 4 ≠ 0 then laa0 - 1 else laa0
    let lbb := cdiv (306001 * jm) 10000
    let ljul0 := laa + lbb + d + 1720995
    let ljul :=
      if 15 + 31 * (10 + 12 * 1582) ≤ d + 31 * (m + 12 * y) then
        let lcc0 := cdiv jy 100
        let lcc := if jy < 0 ∧ cmod jy 100 ≠ 0 then lcc0 - 1 else lcc0
        let lee0 := cdiv lcc 4
        let lee := if lcc < 0 ∧ cmod lcc 4 ≠ 0 then lee0 - 1 else lee0
        ljul0 + 2 - lcc + lee
      else ljul0
    (true, (ljul : ℚ) + deltaTime)

/-- The tail of `getDateFromJulianDay` shared by all three `ta` branches: the
Numerical Recipes `caldat` arithmetic producing `(year, month, day)`.  The
`tb ≤ JB_MAX_WITHOUT_OVERFLOW` test selects the plain `long` expression or the
same expression computed in `unsigned long long`; the latter is modelled as
natural-number division, exact wherever the C computation does not wrap. -/
def nrCore (julian ta : ℤ) : ℤ × ℤ × ℤ :=
  let tb := ta + 1524
  let tc := if tb ≤ 107374182 then cdiv (tb * 20 - 2442) 7305
            else ((tb * 20 - 2442).toNat / 7305 : ℕ)
  let td := 365 * tc + cdiv tc 4
  let te := cdiv ((tb - td) * 10000) 306001
  let dd := tb - td - cdiv (306001 * te) 10000
  let mm0 := te - 1
  let mm := if 12 < mm0 then mm0 - 12 else mm0
  let yy0 := tc - 4715
  let yy1 := if 2 < mm then yy0 - 1 else yy0
  let yy := if julian < 0 then yy1 - 100 * (1 - cdiv julian 36525) else yy1
  (yy, mm, dd)

/-- The Gregorian branch of `getDateFromJulianDay`: day numbers at or above
`JD_GREG_CAL = 2299161` first remove the Gregorian century corrections via
`jalpha`. -/
def gregorianDateBranch (julian : ℤ) : ℤ × ℤ × ℤ :=
  let jalpha := cdiv (4 * (julian - 1867216) - 1) 146097
  nrCore julian (julian + 1 + jalpha - cdiv jalpha 4)

/-- The Julian branch of `getDateFromJulianDay`: day numbers below the cutover,
with the separate offset path for negative day numbers. -/
def julianDateBranch (julian : ℤ) : ℤ × ℤ × ℤ :=
  if julian < 0 then nrCore julian (julian + 36525 * (1 - cdiv julian 36525))
  else nrCore julian julian

/-- `getDateFromJulianDay` on the already-floored integer day number. -/
def getDateFromJulianDayInt (julian : ℤ) : ℤ × ℤ × ℤ :=
  if 2299161 ≤ julian then gregorianDateBranch julian else julianDateBranch julian

/-- `getDateFromJulianDay` from `StelUtils.cpp`:
`julian = floor(jd + 0.5)` followed by the integer caldat algorithm. -/
def getDateFromJulianDay (jd : ℚ) : ℤ × ℤ × ℤ :=
  getDateFromJulianDayInt ⌊jd + 1/2⌋

/-- Proof-infrastructure view of the Fliegel-Van Flandern day number for
shifted months `M ∈ [3, 14]` (January and February counted as months 13 and 14
of the preceding year `Y`), written with Euclidean division, which agrees with
the C divisions of `gregJDN` on this domain. -/
def fliegelShift (Y M d : ℤ) : ℤ :=
  (1461 * (Y + 4800)) / 4 + (367 * (M - 2)) / 12 - (3 * ((Y + 4900) / 100)) / 4 + d - 32075

/-- `getTimeFromJulianDay` from `StelUtils.cpp`:
`s = floor(frac·86400 + 0.0001)` of the fractional part, then hour
`((s/3600)+12) % 24`, minute `(s/60) % 60`, second `s % 60`. -/
def getTimeFromJulianDay (jd : ℚ) : ℤ × ℤ × ℤ :=
  let frac : ℚ := jd - ⌊jd⌋
  let s : ℤ := ⌊frac * (24 * 60 * 60) + 1/10000⌋
  (cmod (cdiv s (60 * 60) + 12) 24, cmod (cdiv s 60) 60, cmod s 60)

/-- The "decimal year" expression `year+((month-1)*30.5+day/31*30.5)/366` as the
source computes it: `day` and `31` are C `int`s, so `day/31` is a C integer
division (0 for days 1..30, 1 for day 31). -/
def yearDecCode (year month day : ℤ) : ℚ :=
  (year : ℚ) + (((month : ℚ) - 1) * 30.5 + (cdiv day 31 : ℤ) * 30.5) / 366

/-- The decimal year as claimed by the specification: the same expression with
`day/31` read as ordinary real-valued division. -/
def yearDecSpec (year month day : ℤ) : ℚ :=
  (year : ℚ) + (((month : ℚ) - 1) * 30.5 + (day : ℚ) / 31 * 30.5) / 366

/-- `decYear2DeltaT` from `StelUtils.cpp`: the seven-segment Espenak & Meeus
(2006) composite polynomial in the decimal year. -/
def decYear2DeltaT (y : ℚ) : ℚ :=
  if y < -500 then
    -20 + 32 * ((y - 1820) / 100)^2
  else if y < 500 then
    let u := y / 100
    10583.6 - 1014.41 * u + 33.78311 * u^2 - 5.952053 * u^3
      - 0.1798452 * u^4 + 0.022174192 * u^5 + 0.0090316521 * u^6
  else if y < 1600 then
    let u := (y - 1000) / 100
    1574.2 - 556.01 * u + 71.23472 * u^2 + 0.319781 * u^3
      - 0.8503463 * u^4 - 0.005050998 * u^5 + 0.0083572073 * u^6
  else if y < 1700 then
    let t := y - 1600
    120 - 0.9808 * t - 0.01532 * t^2 + t^3 / 7129
  else if y < 1800 then
    let t := y - 1700
    8.83 + 0.1603 * t - 0.0059285 * t^2 + 0.00013336 * t^3 - t^4 / 1174000
  else if y < 1860 then
    let t := y - 1800
    13.72 - 0.332447 * t + 0.0068612 * t^2 + 0.0041116 * t^3 - 0.00037436 * t^4
      + 0.0000121272 * t^5 - 0.0000001699 * t^6 + 0.000000000875 * t^7
  else if y < 1900 then
    let t := y - 1860
    7.62 + 0.5737 * t - 0.251754 * t^2 + 0.01680668 * t^3
      - 0.0004473624 * t^4 + t^5 / 233174
  else if y < 1920 then
    let t := y - 1900;
    -2.79 + 1.494119 * t - 0.0598939 * t^2 + 0.0061966 * t^3 - 0.000197 * t^4
  else if y < 1941 then
    let t := y - 1920
    21.20 + 0.84493 * t - 0.076100 * t^2 + 0.0020936 * t^3
  else if y < 1961 then
    let t := y - 1950
    29.07 + 0.407 * t - t^2 / 233 + t^3 / 2547
  else if y < 1986 then
    let t := y - 1975
    45.45 + 1.067 * t - t^2 / 260 - t^3 / 718
  else if y < 2005 then
    let t := y - 2000
    63.86 + 0.3345 * t - 0.060374 * t^2 + 0.0017275 * t^3 + 0.000651814 * t^4
      + 0.00002373599 * t^5
  else if y < 2050 then
    let t := y - 2000
    62.92 + 0.32217 * t + 0.005589 * t^2
  else if y < 2150 then
    -20 + 32 * ((y - 1820) / 100)^2 - 0.5628 * (2150 - y)
  else
    -20 + 32 * ((y - 1820) / 100)^2

/-- `getDeltaTByEspenakMeeus` from `StelUtils.cpp`: recover the calendar date
from the JD and feed the source's decimal year into `decYear2DeltaT`. -/
def getDeltaTByEspenakMeeus (jDay : ℚ) : ℚ :=
  let ymd := getDateFromJulianDay jDay
  decYear2DeltaT (yearDecCode ymd.1 ymd.2.1 ymd.2.2)

/-- `getDeltaTByStephensonMorrison1984` from `StelUtils.cpp`: two epoch
segments in `u = (yeardec - 1800)/100`, defaulting to 0 outside them. -/
def getDeltaTByStephensonMorrison1984 (jDay : ℚ) : ℚ :=
  let ymd := getDateFromJulianDay jDay
  let year := ymd.1
  let u := (yearDecCode ymd.1 ymd.2.1 ymd.2.2 - 1800) / 100
  let d0 : ℚ := 0
  let d1 := if -391 < year ∧ year ≤ 948 then 1360.0 + 320 * u + 44.3 * u^2 else d0
  let d2 := if 948 < year ∧ year ≤ 1600 then 25.5 * u^2 else d1
  d2

/-- The 191-entry `MeeusDeltaTTable` (tenths of a second, 1620..2000 at
two-year steps) from `StelUtils.cpp`. -/
def MeeusDeltaTTable : List ℤ :=
  [1210, 1120, 1030, 950, 880, 820, 770, 720, 680, 630, 600, 560, 530, 510, 480,
    460, 440, 420, 400, 380, 350, 330, 310, 290, 260, 240, 220, 200, 180, 160,
    140, 120, 110, 100, 90, 80, 70, 70, 70, 70, 70, 70, 80, 80, 90,
    90, 90, 90, 90, 100, 100, 100, 100, 100, 100, 100, 100, 110, 110, 110,
    110, 110, 120, 120, 120, 120, 130, 130, 130, 140, 140, 140, 140, 150, 150,
    150, 150, 150, 160, 160, 160, 160, 160, 160, 160, 160, 150, 150, 140, 130,
    131, 125, 122, 120, 120, 120, 120, 120, 120, 119, 116, 11, 102, 92, 82,
    71, 62, 56, 54, 53, 54, 56, 59, 62, 65, 68, 71, 73, 75, 76,
    77, 73, 62, 52, 27, 14, -12, -28, -38, -48, -55, -53, -56, -57, -59,
    -60, -63, -65, -62, -47, -28, -1, 26, 53, 77, 104, 133, 160, 182, 202,
    211, 224, 235, 238, 243, 240, 239, 239, 237, 240, 243, 253, 262, 273, 282,
    291, 300, 307, 314, 322, 331, 340, 350, 365, 383, 402, 422, 445, 465, 485,
    505, 522, 538, 549, 558, 569, 583, 600, 616, 630, 650]

/-- `getDeltaTByMeeus` from `StelUtils.cpp`: the two `u20` polynomials outside
1620..2000, the interpolation-table lookup with the deliberate integer
division `pos = (year-1620)/2` inside it, and the extrapolation branches after
2000. -/
def getDeltaTByMeeus (jDay : ℚ) : ℚ :=
  let ymd := getDateFromJulianDay jDay
  let year := ymd.1
  let u20 : ℚ := (jDay - 2451545.0) / 36525.0
  if year < 948 then (44.1 * u20 + 497.0) * u20 + 2177.0
  else if year < 1620 then (25.3 * u20 + 102.0) * u20 + 102.0
  else if year < 2000 then
    let yeardec := yearDecCode ymd.1 ymd.2.1 ymd.2.2
    let pos := cdiv (year - 1620) 2
    (MeeusDeltaTTable.getD pos.toNat 0
      + (yeardec - (2 * pos + 1620)) * 0.5
        * (MeeusDeltaTTable.getD (pos.toNat + 1) 0 - MeeusDeltaTTable.getD pos.toNat 0)) / 10.0
  else if year < 2100 then (25.3 * u20 + 102.0) * u20 + 102.0 + 0.37 * (year - 2100)
  else (25.3 * u20 + 102.0) * u20 + 102.0

/-- `getDeltaTByMeeusSimons` from `StelUtils.cpp`: eight sequential `if`
blocks, each overwriting `deltaT`; the embedding nests them so that a later
matching condition wins, exactly as the C control flow does. -/
def getDeltaTByMeeusSimons (jDay : ℚ) : ℚ :=
  let ymd := getDateFromJulianDay jDay
  let year := ymd.1
  let ub := (yearDecCode ymd.1 ymd.2.1 ymd.2.2 - 2000) / 100
  let d0 : ℚ := 0
  let d1 := if 1620 ≤ year ∧ year < 1690 then
      let u := 3.45 + ub
      40.3 - 107.0 * u + 50.0 * u^2 - 454.0 * u^3 + 1244.0 * u^4
    else d0
  let d2 := if 1690 ≤ year ∧ year < 1770 then
      let u := 2.70 + ub
      10.2 + 11.3 * u - u^2 - 16.0 * u^3 + 70.0 * u^4
    else d1
  let d3 := if 1770 ≤ year ∧ year < 1820 then
      let u := 2.05 + ub
      14.7 - 18.8 * u - 22.0 * u^2 + 173.0 * u^3 + 6.0 * u^4
    else d2
  let d4 := if 1820 ≤ year ∧ year < 1870 then
      let u := 1.55 + ub
      5.7 + 12.7 * u + 111.0 * u^2 - 534.0 * u^3 + 1654.0 * u^4
    else d3
  let d5 := if 1870 ≤ year ∧ year < 1900 then
      let u := 1.15 + ub;
      -5.8 - 14.6 * u + 27.0 * u^2 + 101.0 * u^3 + 8234.0 * u^4
    else d4
  let d6 := if 1900 ≤ year ∧ year < 1940 then
      let u := 0.80 + ub
      21.4 + 67.0 * u + 443.0 * u^2 + 19.0 * u^3 + 4441.0 * u^4
    else d5
  let d7 := if 1940 ≤ year ∧ year < 1990 then
      let u := 0.35 + ub
      36.2 + 74.0 * u + 189.0 * u^2 - 140.0 * u^3 - 1883.0 * u^4
    else d6
  let d8 := if 1900 ≤ year ∧ year ≤ 2000 then
      let u := 0.05 + ub
      60.8 + 82.0 * u + 188.0 * u^2 - 5034.0 * u^3
    else d7
  d8

/-- `while (os > 59) { os -= 60; omin += 1; change = true; }` -/
def rollSecUp (os omin : ℤ) (ch : Bool) : ℤ × ℤ × Bool :=
  if 59 < os then rollSecUp (os - 60) (omin + 1) true else (os, omin, ch)
termination_by os.toNat
decreasing_by omega

/-- `while (os < 0) { os += 60; omin -= 1; change = true; }` -/
def rollSecDn (os omin : ℤ) (ch : Bool) : ℤ × ℤ × Bool :=
  if os < 0 then rollSecDn (os + 60) (omin - 1) true else (os, omin, ch)
termination_by (-os).toNat
decreasing_by omega

/-- `while (omin > 59) { omin -= 60; oh += 1; change = true; }` -/
def rollMinUp (omin oh : ℤ) (ch : Bool) : ℤ × ℤ × Bool :=
  if 59 < omin then rollMinUp (omin - 60) (oh + 1) true else (omin, oh, ch)
termination_by omin.toNat
decreasing_by omega

/-- `while (omin < 0) { omin += 60; oh -= 1; change = true; }` -/
def rollMinDn (omin oh : ℤ) (ch : Bool) : ℤ × ℤ × Bool :=
  if omin < 0 then rollMinDn (omin + 60) (oh - 1) true else (omin, oh, ch)
termination_by (-omin).toNat
decreasing_by omega

/-- `while (oh > 23) { oh -= 24; od += 1; change = true; }` -/
def rollHourUp (oh od : ℤ) (ch : Bool) : ℤ × ℤ × Bool :=
  if 23 < oh then rollHourUp (oh - 24) (od + 1) true else (oh, od, ch)
termination_by oh.toNat
decreasing_by omega

/-- `while (oh < 0) { oh += 24; od -= 1; change = true; }` -/
def rollHourDn (oh od : ℤ) (ch : Bool) : ℤ × ℤ × Bool :=
  if oh < 0 then rollHourDn (oh + 24) (od - 1) true else (oh, od, ch)
termination_by (-oh).toNat
decreasing_by omega

/-- Termination measure helper for the day-overflow loop: how far the month is
from the window `[0, 13]` on which `numberOfDaysInMonthInYear` is positive. -/
def monthGapUp (om : ℤ) : ℕ := (-om).toNat + (om - 13).toNat

/-- Termination measure helper for the day-borrow loop: how far `om - 1` is
from the window `[0, 13]`. -/
def monthGapDn (om : ℤ) : ℕ := (om - 14).toNat + (1 - om).toNat

/-- `while (od > numberOfDaysInMonthInYear(om, oy)) { od -= ...; om++;
if (om > 12) { om -= 12; oy += 1; } change = true; }` -/
def rollDayUp (oy om od : ℤ) (ch : Bool) : ℤ × ℤ × ℤ × Bool :=
  if numberOfDaysInMonthInYear om oy < od then
    let od2 := od - numberOfDaysInMonthInYear om oy
    if 12 < om + 1 then rollDayUp (oy + 1) (om + 1 - 12) od2 true
    else rollDayUp oy (om + 1) od2 true
  else (oy, om, od, ch)
termination_by (od.toNat, monthGapUp om)
decreasing_by
  all_goals
    rcases dim_window om oy with ⟨hin, hout⟩
    simp only [monthGapUp]
    by_cases hr : 0 ≤ om ∧ om ≤ 13
    · exact Prod.Lex.left _ _ (by have := hin hr; omega)
    · have := hout (by omega)
      apply Prod.Lex.right' <;> omega

/-- `while (od < 1) { od += numberOfDaysInMonthInYear(om-1, oy); om--;
if (om < 1) { om += 12; oy -= 1; } change = true; }` -/
def rollDayDn (oy om od : ℤ) (ch : Bool) : ℤ × ℤ × ℤ × Bool :=
  if od < 1 then
    let od2 := od + numberOfDaysInMonthInYear (om - 1) oy
    if om - 1 < 1 then rollDayDn (oy - 1) (om - 1 + 12) od2 true
    else rollDayDn oy (om - 1) od2 true
  else (oy, om, od, ch)
termination_by ((1 - od).toNat, monthGapDn om)
decreasing_by
  all_goals
    rcases dim_window (om - 1) oy with ⟨hin, hout⟩
    simp only [monthGapDn]
    by_cases hr : 0 ≤ om - 1 ∧ om - 1 ≤ 13
    · exact Prod.Lex.left _ _ (by have := hin hr; omega)
    · have := hout (by omega)
      apply Prod.Lex.right' <;> omega

/-- `while (om > 12) { om -= 12; oy += 1; change = true; }` -/
def rollMonUp (oy om : ℤ) (ch : Bool) : ℤ × ℤ × Bool :=
  if 12 < om then rollMonUp (oy + 1) (om - 12) true else (oy, om, ch)
termination_by om.toNat
decreasing_by omega

/-- `while (om < 1) { om += 12; oy -= 1; change = true; }` -/
def rollMonDn (oy om : ℤ) (ch : Bool) : ℤ × ℤ × Bool :=
  if om < 1 then rollMonDn (oy - 1) (om + 12) true else (oy, om, ch)
termination_by (1 - om).toNat
decreasing_by omega

/-- All carry/borrow passes of `changeDateTimeForRollover`, in source order,
up to but not including the Julian-Gregorian gap fix-up.  Returns
`(oy, om, od, oh, omin, os, change)`. -/
def rolloverPreGap (oy om od oh omin os : ℤ) : ℤ × ℤ × ℤ × ℤ × ℤ × ℤ × Bool :=
  let r1 := rollSecUp os omin false
  let r2 := rollSecDn r1.1 r1.2.1 r1.2.2
  let r3 := rollMinUp r2.2.1 oh r2.2.2
  let r4 := rollMinDn r3.1 r3.2.1 r3.2.2
  let r5 := rollHourUp r4.2.1 od r4.2.2
  let r6 := rollHourDn r5.1 r5.2.1 r5.2.2
  let r7 := rollDayUp oy om r6.2.1 r6.2.2
  let r8 := rollDayDn r7.1 r7.2.1 r7.2.2.1 r7.2.2.2
  let r9 := rollMonUp r8.1 r8.2.1 r8.2.2.2
  let r10 := rollMonDn r9.1 r9.2.1 r9.2.2
  (r10.1, r10.2.1, r8.2.2.1, r6.1, r4.1, r2.1, r10.2.2)

/-- `changeDateTimeForRollover` from `StelUtils.cpp`: the carry/borrow passes
followed by the Julian-Gregorian epoch-hole fix-up (`oy == 1582 && om == 10 &&
4 < od < 15` snaps the day to 15).  Returns the `change` flag and the final
`(year, month, day, hour, minute, second)` values of the locals. -/
def changeDateTimeForRollover (oy om od oh omin os : ℤ) :
    Bool × (ℤ × ℤ × ℤ × ℤ × ℤ × ℤ) :=
  let r := rolloverPreGap oy om od oh omin os
  if r.1 = 1582 ∧ r.2.1 = 10 ∧ 4 < r.2.2.1 ∧ r.2.2.1 < 15 then
    (true, (r.1, r.2.1, 15, r.2.2.2.1, r.2.2.2.2.1, r.2.2.2.2.2.1))
  else
    (r.2.2.2.2.2.2, (r.1, r.2.1, r.2.2.1, r.2.2.2.1, r.2.2.2.2.1, r.2.2.2.2.2.1))

/-- The C calling convention of `changeDateTimeForRollover`: the six result
locations `*ry .. *rs` are assigned only inside `if (change) { ... }`, so an
unchanged call leaves them at whatever values `init` they held before. -/
def changeDateTimeForRolloverWrite (oy om od oh omin os : ℤ)
    (init : ℤ × ℤ × ℤ × ℤ × ℤ × ℤ) : Bool × (ℤ × ℤ × ℤ × ℤ × ℤ × ℤ) :=
  let r := changeDateTimeForRollover oy om od oh omin os
  (r.1, if r.1 then r.2 else init)

/-- Numeric value of a list of ASCII digits. -/
def digitsVal (ds : List Char) : ℤ :=
  ds.foldl (fun n c => 10 * n + ((c.toNat : ℤ) - 48)) 0

/-- Value of a fractional-digits capture `d₁d₂…` as `0.d₁d₂…`. -/
def fracVal (ds : List Char) : ℚ :=
  (digitsVal ds : ℚ) / 10 ^ ds.length

/-- Modelled from the spec: `getDateTimeFromISO8601String`, i.e. Qt
`QRegExp::exactMatch` against
`^([+\x2d]?\d+)[:\x2d](\d\d)[:\x2d](\d\d)T(\d?\d):(\d\d):(\d\d(?:\.\d*)?)$`
followed by `toInt`/`toFloat` of the six captures (conversions modelled exact,
`int` overflow out of scope of the rational model).  The greedy-with-
backtracking `\d?\d` hour matches two digits when a `:` follows them and one
digit otherwise.  Returns the captured
`(year, month, day, hour, minute, second)` on a match. -/
def getDateTimeFromISO8601String (s : List Char) :
    Option (ℤ × ℤ × ℤ × ℤ × ℤ × ℚ) :=
  let (neg, s1) :=
    match s with
    | c :: r => if c = '-' then (true, r) else if c = '+' then (false, r) else (false, s)
    | [] => (false, s)
  let (yd, s2) := s1.span (fun c => c.isDigit)
  if yd = [] then none else
  match s2 with
  | c1 :: r1 =>
    if c1 = ':' ∨ c1 = '-' then
      match r1 with
      | m1 :: m2 :: c2 :: r2 =>
        if m1.isDigit ∧ m2.isDigit ∧ (c2 = ':' ∨ c2 = '-') then
          match r2 with
          | d1 :: d2 :: ct :: r3 =>
            if d1.isDigit ∧ d2.isDigit ∧ ct = 'T' then
              match r3 with
              | h1 :: h2 :: r4 =>
                let hourPart : Option (ℤ × List Char) :=
                  if h1.isDigit ∧ h2.isDigit then
                    match r4 with
                    | c3 :: r5 => if c3 = ':' then some (digitsVal [h1, h2], r5) else none
                    | [] => none
                  else if h1.isDigit ∧ h2 = ':' then some (digitsVal [h1], r4)
                  else none
                match hourPart with
                | some (hv, r5) =>
                  match r5 with
                  | n1 :: n2 :: c4 :: s1c :: s2c :: r6 =>
                    if n1.isDigit ∧ n2.isDigit ∧ c4 = ':' ∧ s1c.isDigit ∧ s2c.isDigit then
                      let base :=
                        (if neg then -digitsVal yd else digitsVal yd,
                          digitsVal [m1, m2], digitsVal [d1, d2], hv,
                          digitsVal [n1, n2], (digitsVal [s1c, s2c] : ℚ))
                      match r6 with
                      | [] => some base
                      | dot :: fr =>
                        if dot = '.' ∧ fr.all (fun c => c.isDigit) then
                          some (base.1, base.2.1, base.2.2.1, base.2.2.2.1,
                            base.2.2.2.2.1, base.2.2.2.2.2 + fracVal fr)
                        else none
                    else none
                  | _ => none
                | none => none
              | _ => none
            else none
          | _ => none
        else none
      | _ => none
    else none
  | [] => none

/-- The ISO-8601 pattern exactly as the specification words it: optional sign,
year digits, separator `:` or `-`, two-digit month, separator, two-digit day,
`T`, two-digit hour, `:`, two-digit minute, `:`, two-digit second, optional
fractional seconds (a dot followed by digits). -/
def specISO8601Pattern (s : List Char) : Bool :=
  let s1 :=
    match s with
    | c :: r => if c = '-' ∨ c = '+' then r else s
    | [] => s
  let (yd, s2) := s1.span (fun c => c.isDigit)
  if yd = [] then false else
  match s2 with
  | c1 :: m1 :: m2 :: c2 :: d1 :: d2 :: ct :: h1 :: h2 :: c3 :: n1 :: n2 :: c4 :: s1c :: s2c :: r6 =>
    if (c1 = ':' ∨ c1 = '-') ∧ m1.isDigit ∧ m2.isDigit ∧ (c2 = ':' ∨ c2 = '-') ∧
        d1.isDigit ∧ d2.isDigit ∧ ct = 'T' ∧ h1.isDigit ∧ h2.isDigit ∧ c3 = ':' ∧
        n1.isDigit ∧ n2.isDigit ∧ c4 = ':' ∧ s1c.isDigit ∧ s2c.isDigit then
      match r6 with
      | [] => true
      | dot :: fr => dot = '.' ∧ fr.all (fun c => c.isDigit)
    else false
  | _ => false

/-- The pattern of the amended claim: as `specISO8601Pattern`, but the hour
field may be one or two digits. -/
def amendedISO8601Pattern (s : List Char) : Bool :=
  let s1 :=
    match s with
    | c :: r => if c = '-' ∨ c = '+' then r else s
    | [] => s
  let (yd, s2) := s1.span (fun c => c.isDigit)
  if yd = [] then false else
  match s2 with
  | c1 :: m1 :: m2 :: c2 :: d1 :: d2 :: ct :: r3 =>
    if (c1 = ':' ∨ c1 = '-') ∧ m1.isDigit ∧ m2.isDigit ∧ (c2 = ':' ∨ c2 = '-') ∧
        d1.isDigit ∧ d2.isDigit ∧ ct = 'T' then
      let afterHour : Option (List Char) :=
        match r3 with
        | h1 :: h2 :: r4 =>
          if h1.isDigit ∧ h2.isDigit then
            match r4 with
            | c3 :: r5 => if c3 = ':' then some r5 else none
            | [] => none
          else if h1.isDigit ∧ h2 = ':' then some r4
          else none
        | _ => none
      match afterHour with
      | some (n1 :: n2 :: c4 :: s1c :: s2c :: r6) =>
        if n1.isDigit ∧ n2.isDigit ∧ c4 = ':' ∧ s1c.isDigit ∧ s2c.isDigit then
          match r6 with
          | [] => true
          | dot :: fr => dot = '.' ∧ fr.all (fun c => c.isDigit)
        else false
      | _ => false
    else false
  | _ => false

/-- `getJulianDayFromISO8601String` from `StelUtils.cpp`: parse, then convert
through `getJDFromDate` (whose `int s` parameter truncates the float seconds),
reporting `(ok, result)` with the best-effort default 0.0 on failure. -/
def getJulianDayFromISO8601String (s : List Char) : Bool × ℚ :=
  match getDateTimeFromISO8601String s with
  | some (y, m, d, h, mi, sec) =>
    let r := getJDFromDate y m d h mi ⌊sec⌋
    if r.1 then (true, r.2) else (false, 0)
  | none => (false, 0)


/-! ### Helper lemmas -/

/-- Truncated division of a nonnegative dividend is Euclidean division. -/
theorem cdiv_nonneg_eq (a b : ℤ) (h : 0 ≤ a) : cdiv a b = a / b := if_pos h

/-- Truncated remainder of a nonnegative dividend is the Euclidean remainder. -/
theorem cmod_nonneg_eq (a b : ℤ) (h : 0 ≤ a) : cmod a b = a % b := by
  rw [cmod, cdiv_nonneg_eq a b h, Int.emod_def]


set_option maxHeartbeats 1600000 in
theorem fliegelShift_roundtrip (Y M d : ℤ)
    (hY : 1582 ≤ Y) (hGreg : 1583 ≤ Y ∨ 13 ≤ M) (hM1 : 3 ≤ M) (hM2 : M ≤ 14) (hd1 : 1 ≤ d)
    (hd2 : ((M = 3 ∨ M = 5 ∨ M = 7 ∨ M = 8 ∨ M = 10 ∨ M = 12 ∨ M = 13) ∧ d ≤ 31)
      ∨ ((M = 4 ∨ M = 6 ∨ M = 9 ∨ M = 11) ∧ d ≤ 30)
      ∨ (M = 14 ∧ (d ≤ 28 ∨ (d ≤ 29 ∧ (Y+1) % 4 = 0 ∧ ((Y+1) % 100 ≠ 0 ∨ (Y+1) % 400 = 0))))) :
    getDateFromJulianDayInt (fliegelShift Y M d) =
      (if 12 < M then (Y + 1, M - 12, d) else (Y, M, d)) := by
  obtain ⟨c1, r1, e1, e2, e3⟩ : ∃ c r, Y + 4800 = 100*c + r ∧ 0 ≤ r ∧ r < 100 :=
    ⟨(Y+4800)/100, (Y+4800)%100, by omega, by omega, by omega⟩
  obtain ⟨c2, r2, f1, f2, f3⟩ : ∃ c r, c1 = 4*c + r ∧ 0 ≤ r ∧ r < 4 :=
    ⟨c1/4, c1%4, by omega, by omega, by omega⟩
  obtain ⟨q3, r3, g1, g2, g3⟩ : ∃ q r, r1 = 4*q + r ∧ 0 ≤ r ∧ r < 4 :=
    ⟨r1/4, r1%4, by omega, by omega, by omega⟩
  have hd3 : ((M = 3 ∨ M = 5 ∨ M = 7 ∨ M = 8 ∨ M = 10 ∨ M = 12 ∨ M = 13) ∧ d ≤ 31)
      ∨ ((M = 4 ∨ M = 6 ∨ M = 9 ∨ M = 11) ∧ d ≤ 30)
      ∨ (M = 14 ∧ (d ≤ 28 ∨ (d ≤ 29 ∧ r3 = 3 ∧ (r1 ≠ 99 ∨ r2 = 3)))) := by omega
  clear hd2
  have hJlin0 : fliegelShift Y M d
      = 365*(Y+4800) + 25*c1 + q3 + (367*(M-2))/12 - (3*c2 + r2) + d - 32075 := by
    have h1461 : (1461*(Y+4800))/4 = 365*(Y+4800) + 25*c1 + q3 := by omega
    have h49 : (Y+4900)/100 = c1 + 1 := by omega
    have h3c : (3*(c1+1))/4 = 3*c2 + r2 := by omega
    simp only [fliegelShift, h1461, h49, h3c]
  rw [show fliegelShift Y M d = fliegelShift Y M d from rfl]
  generalize hJg : fliegelShift Y M d = J
  rw [hJg] at hJlin0
  have hJGreg : 2299161 ≤ J := by omega
  simp only [getDateFromJulianDayInt, gregorianDateBranch, nrCore]
  rw [if_pos hJGreg]
  generalize hA : cdiv (4 * (J - 1867216) - 1) 146097 = A
  rw [cdiv_nonneg_eq _ _ (by omega)] at hA
  have hA2 : A = c1 - 52 := by omega
  generalize hB : cdiv A 4 = B
  rw [cdiv_nonneg_eq _ _ (by omega)] at hB
  have hB2 : B = c2 - 13 := by omega
  generalize hTB : J + 1 + A - B + 1524 = TB
  have hTB2 : TB = 365*(Y+4800) + 25*c1 + q3 + (367*(M-2))/12 - (3*c2 + r2) + d - 32075
      + 1 + (c1 - 52) - (c2 - 13) + 1524 := by omega
  generalize hTC : (if TB ≤ 107374182 then cdiv (TB * 20 - 2442) 7305
      else (((TB * 20 - 2442).toNat / 7305 : ℕ) : ℤ)) = TC
  have hTC2 : TC = (TB * 20 - 2442) / 7305 := by
    split at hTC
    · rw [cdiv_nonneg_eq _ _ (by omega)] at hTC
      omega
    · omega
  have hTC3 : TC = Y + 4716 := by omega
  generalize hC4 : cdiv TC 4 = C4
  rw [cdiv_nonneg_eq _ _ (by omega)] at hC4
  have hC42 : C4 = 25*c1 - 21 + q3 := by omega
  generalize hTE : cdiv ((TB - (365 * TC + C4)) * 10000) 306001 = TE
  rw [cdiv_nonneg_eq _ _ (by omega)] at hTE
  have hTE2 : TE = M + 1 := by omega
  generalize hDQ : cdiv (306001 * TE) 10000 = DQ
  rw [cdiv_nonneg_eq _ _ (by omega)] at hDQ
  have hDD : TB - (365 * TC + C4) - DQ = d := by omega
  have hjnn : ¬(J < 0) := by omega
  rw [if_neg hjnn, hTE2]
  by_cases h12 : 12 < M
  · rw [if_pos (show 12 < M + 1 - 1 by omega), if_pos h12,
      if_neg (show ¬(2 < M + 1 - 1 - 12) by omega)]
    simp only [Prod.mk.injEq]
    omega
  · rw [if_neg (show ¬(12 < M + 1 - 1) by omega),
      if_pos (show 2 < M + 1 - 1 by omega), if_neg h12]
    simp only [Prod.mk.injEq]
    omega


/-- For months 1..12, `numberOfDaysInMonthInYear` is the plain switch. -/
theorem dim_eq_dimVal (m y : ℤ) (hm : 1 ≤ m ∧ m ≤ 12) :
    numberOfDaysInMonthInYear m y = dimVal m y := by
  unfold numberOfDaysInMonthInYear
  rw [if_neg (by omega), if_neg (by omega)]

/-- After 1582 the QDate month lengths agree with the source's Gregorian
month lengths. -/
theorem qdateDaysInMonth_eq (m y : ℤ) (hy : 1582 < y) :
    qdateDaysInMonth m y = dimVal m y ∨ ¬(1 ≤ m ∧ m ≤ 12) := by
  by_cases hm : 1 ≤ m ∧ m ≤ 12
  · left
    have c4 : cmod y 4 = y % 4 := cmod_nonneg_eq _ _ (by omega)
    have c100 : cmod y 100 = y % 100 := cmod_nonneg_eq _ _ (by omega)
    have c400 : cmod y 400 = y % 400 := cmod_nonneg_eq _ _ (by omega)
    unfold qdateDaysInMonth qdateIsLeapYear dimVal
    rw [if_neg (by omega : ¬ y < 1582)]
    simp only [c4, c100, c400]
    split_ifs <;> simp_all [decide_eq_true_eq] <;> omega
  · right
    exact hm

/-- `gregJDN` written through `fliegelShift`: January and February are months
13 and 14 of the preceding year. -/
theorem gregJDN_eq (y m d : ℤ) (hy : 1582 ≤ y) (hm : 1 ≤ m ∧ m ≤ 12) :
    gregJDN y m d =
      fliegelShift (if 2 < m then y else y - 1) (if 2 < m then m else m + 12) d := by
  by_cases h2 : 2 < m
  · have hcd : cdiv (m - 14) 12 = 0 := by
      unfold cdiv
      rw [if_neg (by omega)]
      omega
    rw [if_pos h2, if_pos h2]
    unfold gregJDN fliegelShift
    rw [hcd, show y + 4800 + (0:ℤ) = y + 4800 by ring,
      show m - 2 - 12 * (0:ℤ) = m - 2 by ring,
      show y + 4900 + (0:ℤ) = y + 4900 by ring,
      cdiv_nonneg_eq _ _ (show (0:ℤ) ≤ 1461 * (y + 4800) by omega),
      cdiv_nonneg_eq _ _ (show (0:ℤ) ≤ 367 * (m - 2) by omega),
      cdiv_nonneg_eq (y + 4900) 100 (by omega),
      cdiv_nonneg_eq _ _ (show (0:ℤ) ≤ 3 * ((y + 4900) / 100) by omega)]
  · have hcd : cdiv (m - 14) 12 = -1 := by
      unfold cdiv
      rw [if_neg (by omega)]
      omega
    rw [if_neg h2, if_neg h2]
    unfold gregJDN fliegelShift
    rw [hcd, show y + 4800 + (-1:ℤ) = y - 1 + 4800 by ring,
      show m - 2 - 12 * (-1:ℤ) = m + 12 - 2 by ring,
      show y + 4900 + (-1:ℤ) = y - 1 + 4900 by ring,
      cdiv_nonneg_eq _ _ (show (0:ℤ) ≤ 1461 * (y - 1 + 4800) by omega),
      cdiv_nonneg_eq _ _ (show (0:ℤ) ≤ 367 * (m + 12 - 2) by omega),
      cdiv_nonneg_eq (y - 1 + 4900) 100 (by omega),
      cdiv_nonneg_eq _ _ (show (0:ℤ) ≤ 3 * ((y - 1 + 4900) / 100) by omega)]

/-- After 1582, the Numerical Recipes inverse recovers the civil date from the
Fliegel-Van Flandern day number. -/
theorem getDateFromJulianDayInt_gregJDN (y m d : ℤ) (hy : 1582 < y)
    (hm : 1 ≤ m ∧ m ≤ 12) (hd : 1 ≤ d ∧ d ≤ dimVal m y) :
    getDateFromJulianDayInt (gregJDN y m d) = (y, m, d) := by
  rw [gregJDN_eq y m d (by omega) hm]
  have c4 : cmod y 4 = y % 4 := cmod_nonneg_eq _ _ (by omega)
  have c100 : cmod y 100 = y % 100 := cmod_nonneg_eq _ _ (by omega)
  have c400 : cmod y 400 = y % 400 := cmod_nonneg_eq _ _ (by omega)
  by_cases h2 : 2 < m
  · rw [if_pos h2, if_pos h2]
    have hdle : d ≤ 31 ∧ (m = 4 ∨ m = 6 ∨ m = 9 ∨ m = 11 → d ≤ 30) := by
      have h := hd.2
      unfold dimVal at h
      split_ifs at h <;> constructor <;> omega
    have hDNF : ((m = 3 ∨ m = 5 ∨ m = 7 ∨ m = 8 ∨ m = 10 ∨ m = 12 ∨ m = 13) ∧ d ≤ 31)
        ∨ ((m = 4 ∨ m = 6 ∨ m = 9 ∨ m = 11) ∧ d ≤ 30)
        ∨ (m = 14 ∧ (d ≤ 28 ∨ (d ≤ 29 ∧ (y+1) % 4 = 0 ∧ ((y+1) % 100 ≠ 0 ∨ (y+1) % 400 = 0)))) := by
      rcases hdle with ⟨h31, h30⟩
      by_cases h4 : m = 4 ∨ m = 6 ∨ m = 9 ∨ m = 11
      · exact Or.inr (Or.inl ⟨h4, h30 h4⟩)
      · exact Or.inl ⟨by omega, h31⟩
    rw [fliegelShift_roundtrip y m d (by omega) (by omega) (by omega) (by omega) hd.1 hDNF,
      if_neg (by omega)]
  · rw [if_neg h2, if_neg h2]
    have hDNF : ((m + 12 = 3 ∨ m + 12 = 5 ∨ m + 12 = 7 ∨ m + 12 = 8 ∨ m + 12 = 10 ∨ m + 12 = 12
          ∨ m + 12 = 13) ∧ d ≤ 31)
        ∨ ((m + 12 = 4 ∨ m + 12 = 6 ∨ m + 12 = 9 ∨ m + 12 = 11) ∧ d ≤ 30)
        ∨ (m + 12 = 14 ∧ (d ≤ 28 ∨ (d ≤ 29 ∧ (y - 1 + 1) % 4 = 0
            ∧ ((y - 1 + 1) % 100 ≠ 0 ∨ (y - 1 + 1) % 400 = 0)))) := by
      rw [show y - 1 + 1 = y by ring]
      by_cases h1 : m = 1
      · refine Or.inl ⟨by omega, ?_⟩
        have h := hd.2
        rw [h1] at h
        have h31 : dimVal 1 y = 31 := by norm_num [dimVal]
        omega
      · have hm2 : m = 2 := by omega
        refine Or.inr (Or.inr ⟨by omega, ?_⟩)
        have h := hd.2
        rw [hm2] at h
        have hfeb : dimVal 2 y
            = if y % 4 = 0 then (if y % 100 = 0 then (if y % 400 = 0 then 29 else 28) else 29)
              else 28 := by
          unfold dimVal
          rw [if_neg (by norm_num), if_neg (by norm_num), if_pos rfl,
            if_pos (show (1582:ℤ) < y by omega), c4, c100, c400]
        rw [hfeb] at h
        split_ifs at h <;> omega
    rw [fliegelShift_roundtrip (y - 1) (m + 12) d (by omega) (by omega) (by omega)
      (by omega) hd.1 hDNF, if_pos (by omega)]
    rw [show y - 1 + 1 = y from by ring, show m + 12 - 12 = m from by ring]

/-- The time-of-day offset `h/24 + min/1440 + s/86400 - 1/2` written over the
total second count. -/
theorem deltaTime_eq (h mi s : ℤ) :
    (h : ℚ) / 24 + (mi : ℚ) / (24 * 60) + (s : ℚ) / (24 * 60 * 60) - 1/2
      = ((3600 * h + 60 * mi + s - 43200 : ℤ) : ℚ) / ((86400 : ℕ) : ℚ) := by
  push_cast
  ring

/-- Flooring `jd + 0.5` of a civil time within the day recovers the integer
day number. -/
theorem floor_jd_add_half (F h mi s : ℤ)
    (hh : 0 ≤ h ∧ h ≤ 23) (hmi : 0 ≤ mi ∧ mi ≤ 59) (hs : 0 ≤ s ∧ s ≤ 59) :
    ⌊(F : ℚ) + ((h : ℚ) / 24 + (mi : ℚ) / (24 * 60) + (s : ℚ) / (24 * 60 * 60) - 1/2)
      + 1/2⌋ = F := by
  have ht : (F : ℚ) + ((h : ℚ) / 24 + (mi : ℚ) / (24 * 60) + (s : ℚ) / (24 * 60 * 60) - 1/2)
      + 1/2 = (F : ℚ) + ((3600 * h + 60 * mi + s : ℤ) : ℚ) / ((86400 : ℕ) : ℚ) := by
    push_cast
    ring
  rw [ht, Int.floor_int_add, Rat.floor_intCast_div_natCast]
  have : (3600 * h + 60 * mi + s) / (86400 : ℤ) = 0 := by omega
  omega

/-- `getTimeFromJulianDay` exactly recovers the civil time encoded by
`getJDFromDate`'s fractional day. -/
theorem getTimeFromJulianDay_civil (F h mi s : ℤ)
    (hh : 0 ≤ h ∧ h ≤ 23) (hmi : 0 ≤ mi ∧ mi ≤ 59) (hs : 0 ≤ s ∧ s ≤ 59) :
    getTimeFromJulianDay ((F : ℚ)
      + ((h : ℚ) / 24 + (mi : ℚ) / (24 * 60) + (s : ℚ) / (24 * 60 * 60) - 1/2)) = (h, mi, s) := by
  have ht : (F : ℚ) + ((h : ℚ) / 24 + (mi : ℚ) / (24 * 60) + (s : ℚ) / (24 * 60 * 60) - 1/2)
      = ((F - 1 : ℤ) : ℚ) + ((3600 * h + 60 * mi + s + 43200 : ℤ) : ℚ) / ((86400 : ℕ) : ℚ) := by
    push_cast
    ring
  simp only [getTimeFromJulianDay]
  rw [ht, Int.floor_int_add, Rat.floor_intCast_div_natCast,
    show ((86400:ℕ):ℤ) = (86400:ℤ) from by norm_num]
  have hfr : ((F - 1 : ℤ) : ℚ) + ((3600 * h + 60 * mi + s + 43200 : ℤ) : ℚ) / ((86400 : ℕ) : ℚ)
      - ((F - 1 + (3600 * h + 60 * mi + s + 43200) / (86400 : ℤ) : ℤ) : ℚ)
      = (((3600 * h + 60 * mi + s + 43200) % 86400 : ℤ) : ℚ) / ((86400 : ℕ) : ℚ) := by
    have hdm := Int.ediv_add_emod (3600 * h + 60 * mi + s + 43200) 86400
    have hdmQ : (86400 : ℚ) * (((3600 * h + 60 * mi + s + 43200) / 86400 : ℤ) : ℚ)
        + (((3600 * h + 60 * mi + s + 43200) % 86400 : ℤ) : ℚ)
        = ((3600 * h + 60 * mi + s + 43200 : ℤ) : ℚ) := by
      exact_mod_cast hdm
    push_cast at hdmQ ⊢
    field_simp
    linarith
  rw [hfr]
  have hmul : (((3600 * h + 60 * mi + s + 43200) % 86400 : ℤ) : ℚ) / ((86400 : ℕ) : ℚ)
      * (24 * 60 * 60) = (((3600 * h + 60 * mi + s + 43200) % 86400 : ℤ) : ℚ) := by
    rw [show ((86400:ℕ):ℚ) = (24 * 60 * 60 : ℚ) from by norm_num]
    exact div_mul_cancel₀ _ (by norm_num)
  rw [hmul]
  have hfl : ⌊(((3600 * h + 60 * mi + s + 43200) % 86400 : ℤ) : ℚ) + 1/10000⌋
      = (3600 * h + 60 * mi + s + 43200) % 86400 := by
    rw [Int.floor_int_add]
    norm_num
  rw [hfl]
  have hr0 : 0 ≤ (3600 * h + 60 * mi + s + 43200) % 86400 := by omega
  rw [cdiv_nonneg_eq _ _ hr0, cmod_nonneg_eq _ _ hr0,
    cdiv_nonneg_eq _ _ hr0, cmod_nonneg_eq _ _ (by omega), cmod_nonneg_eq _ _ (by omega)]
  simp only [Prod.mk.injEq]
  refine ⟨by omega, by omega, by omega⟩

/-- C1: for every valid civil date/time after 1582, `getJDFromDate` succeeds
and `getDateFromJulianDay` / `getTimeFromJulianDay` recover exactly the civil
date and time (exact recovery implies recovery to within 1 second). -/
theorem claim_C1 (y m d h mi s : ℤ)
    (hy : 1582 < y) (hm : 1 ≤ m ∧ m ≤ 12)
    (hd : 1 ≤ d ∧ d ≤ numberOfDaysInMonthInYear m y)
    (hh : 0 ≤ h ∧ h ≤ 23) (hmi : 0 ≤ mi ∧ mi ≤ 59) (hs : 0 ≤ s ∧ s ≤ 59) :
    (getJDFromDate y m d h mi s).1 = true ∧
    getDateFromJulianDay (getJDFromDate y m d h mi s).2 = (y, m, d) ∧
    getTimeFromJulianDay (getJDFromDate y m d h mi s).2 = (h, mi, s) := by
  have hdv : 1 ≤ d ∧ d ≤ dimVal m y := by
    rw [← dim_eq_dimVal m y hm]
    exact hd
  have hq : (if y ≤ 0 then y - 1 else y) = y := if_neg (by omega)
  have hvalid : qdateIsValid y m d = true := by
    unfold qdateIsValid
    simp only [decide_eq_true_eq]
    rcases qdateDaysInMonth_eq m y hy with hqd | hqd
    · exact ⟨by omega, by omega, hm.1, hm.2, hdv.1, by rw [hqd]; exact hdv.2, by omega⟩
    · exact absurd hm hqd
  have hjdval : getJDFromDate y m d h mi s
      = (true, ((gregJDN y m d : ℤ) : ℚ)
          + ((h : ℚ) / 24 + (mi : ℚ) / (24 * 60) + (s : ℚ) / (24 * 60 * 60) - 1/2)) := by
    unfold getJDFromDate
    simp only [hq, hvalid, if_true]
    unfold qdateToJulianDay
    rw [if_pos (Or.inl hy)]
  refine ⟨by rw [hjdval], ?_, ?_⟩
  · rw [hjdval]
    unfold getDateFromJulianDay
    rw [floor_jd_add_half (gregJDN y m d) h mi s hh hmi hs]
    exact getDateFromJulianDayInt_gregJDN y m d hy hm hdv
  · rw [hjdval]
    exact getTimeFromJulianDay_civil (gregJDN y m d) h mi s hh hmi hs

/-- Truncated division of a negative dividend. -/
theorem cdiv_neg_eq (a b : ℤ) (h : ¬ 0 ≤ a) : cdiv a b = -((-a) / b) := if_neg h

/-- No integer Julian day number decodes to a date inside the Gregorian-reform
gap (October 5-14, 1582). -/
theorem getDateFromJulianDayInt_ne_gap (julian d : ℤ) (h5 : 5 ≤ d) (h14 : d ≤ 14) :
    getDateFromJulianDayInt julian ≠ (1582, 10, d) := by
  by_cases hg : 2299161 ≤ julian
  · rw [getDateFromJulianDayInt, if_pos hg, gregorianDateBranch]
    simp only [nrCore]
    generalize hA : cdiv (4 * (julian - 1867216) - 1) 146097 = A
    rw [cdiv_nonneg_eq _ _ (by omega)] at hA
    have hA0 : 0 ≤ A := by omega
    generalize hB : cdiv A 4 = B
    rw [cdiv_nonneg_eq _ _ hA0] at hB
    generalize hTB : julian + 1 + A - B + 1524 = TB
    generalize hTC : (if TB ≤ 107374182 then cdiv (TB * 20 - 2442) 7305
        else (((TB * 20 - 2442).toNat / 7305 : ℕ) : ℤ)) = TC
    have hTC2 : TC = (TB * 20 - 2442) / 7305 := by
      split at hTC
      · rw [cdiv_nonneg_eq _ _ (by omega)] at hTC
        omega
      · omega
    generalize hC4 : cdiv TC 4 = C4
    rw [cdiv_nonneg_eq _ _ (by omega)] at hC4
    generalize hTE : cdiv ((TB - (365 * TC + C4)) * 10000) 306001 = TE
    rw [cdiv_nonneg_eq _ _ (by omega)] at hTE
    generalize hDQ : cdiv (306001 * TE) 10000 = DQ
    rw [cdiv_nonneg_eq _ _ (by omega)] at hDQ
    rw [if_neg (by omega : ¬ julian < 0)]
    intro heq
    split_ifs at heq <;> simp only [Prod.mk.injEq] at heq <;> omega
  · rw [getDateFromJulianDayInt, if_neg hg, julianDateBranch]
    by_cases hneg : julian < 0
    · rw [if_pos hneg]
      simp only [nrCore]
      generalize hK : cdiv julian 36525 = K
      rw [cdiv_neg_eq _ _ (by omega)] at hK
      generalize hTA : julian + 36525 * (1 - K) = TA
      generalize hTB : TA + 1524 = TB
      generalize hTC : (if TB ≤ 107374182 then cdiv (TB * 20 - 2442) 7305
          else (((TB * 20 - 2442).toNat / 7305 : ℕ) : ℤ)) = TC
      have hTC2 : TC = (TB * 20 - 2442) / 7305 := by
        split at hTC
        · rw [cdiv_nonneg_eq _ _ (by omega)] at hTC
          omega
        · omega
      generalize hC4 : cdiv TC 4 = C4
      rw [cdiv_nonneg_eq _ _ (by omega)] at hC4
      generalize hTE : cdiv ((TB - (365 * TC + C4)) * 10000) 306001 = TE
      rw [cdiv_nonneg_eq _ _ (by omega)] at hTE
      generalize hDQ : cdiv (306001 * TE) 10000 = DQ
      rw [cdiv_nonneg_eq _ _ (by omega)] at hDQ
      rw [if_pos hneg]
      intro heq
      split_ifs at heq <;> simp only [Prod.mk.injEq] at heq <;> omega
    · rw [if_neg hneg]
      simp only [nrCore]
      generalize hTB : julian + 1524 = TB
      generalize hTC : (if TB ≤ 107374182 then cdiv (TB * 20 - 2442) 7305
          else (((TB * 20 - 2442).toNat / 7305 : ℕ) : ℤ)) = TC
      have hTC2 : TC = (TB * 20 - 2442) / 7305 := by
        split at hTC
        · rw [cdiv_nonneg_eq _ _ (by omega)] at hTC
          omega
        · omega
      generalize hC4 : cdiv TC 4 = C4
      rw [cdiv_nonneg_eq _ _ (by omega)] at hC4
      generalize hTE : cdiv ((TB - (365 * TC + C4)) * 10000) 306001 = TE
      rw [cdiv_nonneg_eq _ _ (by omega)] at hTE
      generalize hDQ : cdiv (306001 * TE) 10000 = DQ
      rw [cdiv_nonneg_eq _ _ (by omega)] at hDQ
      rw [if_neg hneg]
      intro heq
      split_ifs at heq <;> simp only [Prod.mk.injEq] at heq <;> omega

/-- C2: the cutover routing of `getDateFromJulianDay`, the concrete agreement
of both conversion directions at the Gregorian cutover, and the absence of any
JD decoding to the skipped dates October 5-14, 1582. -/
theorem claim_C2 (jd : ℚ) (d : ℤ) (h5 : 5 ≤ d) (h14 : d ≤ 14) :
    (2299161 ≤ ⌊jd + 1/2⌋ → getDateFromJulianDay jd = gregorianDateBranch ⌊jd + 1/2⌋) ∧
    (⌊jd + 1/2⌋ < 2299161 → getDateFromJulianDay jd = julianDateBranch ⌊jd + 1/2⌋) ∧
    getDateFromJulianDay (2299161 : ℚ) = (1582, 10, 15) ∧
    getDateFromJulianDay (2299160 : ℚ) = (1582, 10, 4) ∧
    getJDFromDate 1582 10 15 12 0 0 = (true, (2299161 : ℚ)) ∧
    getJDFromDate 1582 10 4 12 0 0 = (true, (2299160 : ℚ)) ∧
    getDateFromJulianDay jd ≠ (1582, 10, d) := by
  have hf1 : ⌊(2299161 : ℚ) + 1/2⌋ = 2299161 := by
    rw [Int.floor_eq_iff]
    norm_num
  have hf2 : ⌊(2299160 : ℚ) + 1/2⌋ = 2299160 := by
    rw [Int.floor_eq_iff]
    norm_num
  have hjd15 : getJDFromDate 1582 10 15 12 0 0 = (true, (2299161 : ℚ)) := by
    unfold getJDFromDate
    simp only [show (if (1582:ℤ) ≤ 0 then (1582:ℤ) - 1 else 1582) = 1582 from rfl,
      show qdateIsValid 1582 10 15 = true from by decide, if_true,
      show qdateToJulianDay 1582 10 15 = 2299161 from by decide]
    norm_num
  have hjd4 : getJDFromDate 1582 10 4 12 0 0 = (true, (2299160 : ℚ)) := by
    unfold getJDFromDate
    simp only [show (if (1582:ℤ) ≤ 0 then (1582:ℤ) - 1 else 1582) = 1582 from rfl,
      show qdateIsValid 1582 10 4 = true from by decide, if_true,
      show qdateToJulianDay 1582 10 4 = 2299160 from by decide]
    norm_num
  refine ⟨?_, ?_, ?_, ?_, hjd15, hjd4, ?_⟩
  rotate_left 2
  · rw [getDateFromJulianDay, hf1]
    decide
  · rw [getDateFromJulianDay, hf2]
    decide
  rotate_right 2
  · intro h
    rw [getDateFromJulianDay, getDateFromJulianDayInt, if_pos h]
  · intro h
    rw [getDateFromJulianDay, getDateFromJulianDayInt, if_neg (by omega)]
  · exact getDateFromJulianDayInt_ne_gap _ d h5 h14



/-- The alias month 0 is December of the previous year. -/
theorem dim_zero_alias (oy : ℤ) :
    numberOfDaysInMonthInYear 0 oy = numberOfDaysInMonthInYear 12 (oy - 1) := by
  norm_num [numberOfDaysInMonthInYear]

/-- The alias month 13 is January of the next year. -/
theorem dim_thirteen_alias (oy : ℤ) :
    numberOfDaysInMonthInYear 13 oy = numberOfDaysInMonthInYear 1 (oy + 1) := by
  norm_num [numberOfDaysInMonthInYear]

/-- The seconds-overflow loop exits at or below 59. -/
theorem rollSecUp_le (os omin : ℤ) (ch : Bool) : (rollSecUp os omin ch).1 ≤ 59 := by
  induction os, omin, ch using rollSecUp.induct with
  | case1 os omin ch h ih => rw [rollSecUp, if_pos h]; exact ih
  | case2 os omin ch h => rw [rollSecUp, if_neg h]; omega

/-- The seconds-borrow loop, entered at or below 59, exits within [0, 59]. -/
theorem rollSecDn_bounds (os omin : ℤ) (ch : Bool) (h : os ≤ 59) :
    0 ≤ (rollSecDn os omin ch).1 ∧ (rollSecDn os omin ch).1 ≤ 59 := by
  induction os, omin, ch using rollSecDn.induct with
  | case1 os omin ch h1 ih => rw [rollSecDn, if_pos h1]; exact ih (by omega)
  | case2 os omin ch h1 => rw [rollSecDn, if_neg h1]; omega

/-- The minutes-overflow loop exits at or below 59. -/
theorem rollMinUp_le (omin oh : ℤ) (ch : Bool) : (rollMinUp omin oh ch).1 ≤ 59 := by
  induction omin, oh, ch using rollMinUp.induct with
  | case1 omin oh ch h ih => rw [rollMinUp, if_pos h]; exact ih
  | case2 omin oh ch h => rw [rollMinUp, if_neg h]; omega

/-- The minutes-borrow loop, entered at or below 59, exits within [0, 59]. -/
theorem rollMinDn_bounds (omin oh : ℤ) (ch : Bool) (h : omin ≤ 59) :
    0 ≤ (rollMinDn omin oh ch).1 ∧ (rollMinDn omin oh ch).1 ≤ 59 := by
  induction omin, oh, ch using rollMinDn.induct with
  | case1 omin oh ch h1 ih => rw [rollMinDn, if_pos h1]; exact ih (by omega)
  | case2 omin oh ch h1 => rw [rollMinDn, if_neg h1]; omega

/-- The hours-overflow loop exits at or below 23. -/
theorem rollHourUp_le (oh od : ℤ) (ch : Bool) : (rollHourUp oh od ch).1 ≤ 23 := by
  induction oh, od, ch using rollHourUp.induct with
  | case1 oh od ch h ih => rw [rollHourUp, if_pos h]; exact ih
  | case2 oh od ch h => rw [rollHourUp, if_neg h]; omega

/-- The hours-borrow loop, entered at or below 23, exits within [0, 23]. -/
theorem rollHourDn_bounds (oh od : ℤ) (ch : Bool) (h : oh ≤ 23) :
    0 ≤ (rollHourDn oh od ch).1 ∧ (rollHourDn oh od ch).1 ≤ 23 := by
  induction oh, od, ch using rollHourDn.induct with
  | case1 oh od ch h1 ih => rw [rollHourDn, if_pos h1]; exact ih (by omega)
  | case2 oh od ch h1 => rw [rollHourDn, if_neg h1]; omega

/-- The day-overflow loop exits with the day at or below the length of the
month it exits in. -/
theorem rollDayUp_exit (oy om od : ℤ) (ch : Bool) :
    (rollDayUp oy om od ch).2.2.1
      ≤ numberOfDaysInMonthInYear (rollDayUp oy om od ch).2.1 (rollDayUp oy om od ch).1 := by
  induction oy, om, od, ch using rollDayUp.induct with
  | case1 oy om od ch h od2 h12 ih => rw [rollDayUp, if_pos h, if_pos h12]; exact ih
  | case2 oy om od ch h od2 h12 ih => rw [rollDayUp, if_pos h, if_neg h12]; exact ih
  | case3 oy om od ch h => rw [rollDayUp, if_neg h]; dsimp only; omega

/-- The day-borrow loop, entered with the day at or below the current month
length (or nonpositive), exits with a day in [1, month length]. -/
theorem rollDayDn_exit (oy om od : ℤ) (ch : Bool)
    (h : od ≤ numberOfDaysInMonthInYear om oy ∨ od ≤ 0) :
    1 ≤ (rollDayDn oy om od ch).2.2.1 ∧
    (rollDayDn oy om od ch).2.2.1
      ≤ numberOfDaysInMonthInYear (rollDayDn oy om od ch).2.1 (rollDayDn oy om od ch).1 := by
  induction oy, om, od, ch using rollDayDn.induct with
  | case1 oy om od ch h1 od2 hw ih =>
    rw [rollDayDn, if_pos h1, if_pos hw]
    refine ih ?_
    by_cases h0 : om - 1 = 0
    · have e2 : numberOfDaysInMonthInYear (om - 1) oy
          = numberOfDaysInMonthInYear 12 (oy - 1) := by
        rw [h0, dim_zero_alias]
      have e3 : numberOfDaysInMonthInYear (om - 1 + 12) (oy - 1)
          = numberOfDaysInMonthInYear 12 (oy - 1) := by
        rw [show om - 1 + 12 = 12 from by omega]
      omega
    · have := (dim_window (om - 1) oy).2 (by omega)
      omega
  | case2 oy om od ch h1 od2 hw ih =>
    rw [rollDayDn, if_pos h1, if_neg hw]
    refine ih ?_
    have hz := (dim_window (om - 1) oy).1
    by_cases hr : 0 ≤ om - 1 ∧ om - 1 ≤ 13
    · left
      omega
    · right
      have := (dim_window (om - 1) oy).2 (by omega)
      omega
  | case3 oy om od ch h1 =>
    rw [rollDayDn, if_neg h1]
    dsimp only
    rcases h with h | h
    · exact ⟨by omega, h⟩
    · exact ⟨by omega, by omega⟩

/-- The month-overflow loop takes at most one step from months at or
below 13. -/
theorem rollMonUp_spec (oy om : ℤ) (ch : Bool) (h : om ≤ 13) :
    rollMonUp oy om ch = if 12 < om then (oy + 1, om - 12, true) else (oy, om, ch) := by
  by_cases h12 : 12 < om
  · rw [rollMonUp, if_pos h12, rollMonUp, if_neg (by omega), if_pos h12]
  · rw [rollMonUp, if_neg h12, if_neg h12]

/-- The month-borrow loop takes at most one step from nonnegative months. -/
theorem rollMonDn_spec (oy om : ℤ) (ch : Bool) (h : 0 ≤ om) :
    rollMonDn oy om ch = if om < 1 then (oy - 1, om + 12, true) else (oy, om, ch) := by
  by_cases h1 : om < 1
  · rw [rollMonDn, if_pos h1, rollMonDn, if_neg (by omega), if_pos h1]
  · rw [rollMonDn, if_neg h1, if_neg h1]

/-- C4: whenever `changeDateTimeForRollover` reports a change, the normalized
tuple is a valid calendar date and time: seconds, minutes and hours in range,
month in 1..12 and day in 1..`numberOfDaysInMonthInYear`.  (The Lean model is
a total function, so every input terminates by construction.) -/
theorem claim_C4 (oy om od oh omin os : ℤ)
    (hch : (changeDateTimeForRollover oy om od oh omin os).1 = true) :
    0 ≤ (changeDateTimeForRollover oy om od oh omin os).2.2.2.2.2.2 ∧
    (changeDateTimeForRollover oy om od oh omin os).2.2.2.2.2.2 ≤ 59 ∧
    0 ≤ (changeDateTimeForRollover oy om od oh omin os).2.2.2.2.2.1 ∧
    (changeDateTimeForRollover oy om od oh omin os).2.2.2.2.2.1 ≤ 59 ∧
    0 ≤ (changeDateTimeForRollover oy om od oh omin os).2.2.2.2.1 ∧
    (changeDateTimeForRollover oy om od oh omin os).2.2.2.2.1 ≤ 23 ∧
    1 ≤ (changeDateTimeForRollover oy om od oh omin os).2.2.1 ∧
    (changeDateTimeForRollover oy om od oh omin os).2.2.1 ≤ 12 ∧
    1 ≤ (changeDateTimeForRollover oy om od oh omin os).2.2.2.1 ∧
    (changeDateTimeForRollover oy om od oh omin os).2.2.2.1
      ≤ numberOfDaysInMonthInYear (changeDateTimeForRollover oy om od oh omin os).2.2.1
          (changeDateTimeForRollover oy om od oh omin os).2.1 := by
  clear hch
  simp only [changeDateTimeForRollover, rolloverPreGap]
  have hs1 := rollSecUp_le os omin false
  have hs2 := rollSecDn_bounds (rollSecUp os omin false).1 (rollSecUp os omin false).2.1
    (rollSecUp os omin false).2.2 hs1
  set a := rollSecDn (rollSecUp os omin false).1 (rollSecUp os omin false).2.1
    (rollSecUp os omin false).2.2 with ha
  have hm1 := rollMinUp_le a.2.1 oh a.2.2
  have hm2 := rollMinDn_bounds (rollMinUp a.2.1 oh a.2.2).1 (rollMinUp a.2.1 oh a.2.2).2.1
    (rollMinUp a.2.1 oh a.2.2).2.2 hm1
  set b := rollMinDn (rollMinUp a.2.1 oh a.2.2).1 (rollMinUp a.2.1 oh a.2.2).2.1
    (rollMinUp a.2.1 oh a.2.2).2.2 with hb
  have hh1 := rollHourUp_le b.2.1 od b.2.2
  have hh2 := rollHourDn_bounds (rollHourUp b.2.1 od b.2.2).1 (rollHourUp b.2.1 od b.2.2).2.1
    (rollHourUp b.2.1 od b.2.2).2.2 hh1
  set c := rollHourDn (rollHourUp b.2.1 od b.2.2).1 (rollHourUp b.2.1 od b.2.2).2.1
    (rollHourUp b.2.1 od b.2.2).2.2 with hc
  have hd1 := rollDayUp_exit oy om c.2.1 c.2.2
  set e := rollDayUp oy om c.2.1 c.2.2 with he
  have hd2 := rollDayDn_exit e.1 e.2.1 e.2.2.1 e.2.2.2 (Or.inl hd1)
  set f := rollDayDn e.1 e.2.1 e.2.2.1 e.2.2.2 with hf
  have hwin : 0 ≤ f.2.1 ∧ f.2.1 ≤ 13 := by
    by_contra hcon
    have := (dim_window f.2.1 f.1).2 (by omega)
    omega
  rw [rollMonUp_spec f.1 f.2.1 f.2.2.2 hwin.2]
  by_cases h13 : 12 < f.2.1
  · rw [if_pos h13]
    dsimp only
    rw [rollMonDn_spec (f.1 + 1) (f.2.1 - 12) true (by omega),
      if_neg (show ¬(f.2.1 - 12 < 1) from by omega)]
    dsimp only
    have h13' : f.2.1 = 13 := by omega
    have halias := dim_thirteen_alias f.1
    rw [if_neg (by omega : ¬((f.1 + 1) = 1582 ∧ (f.2.1 - 12) = 10
      ∧ 4 < f.2.2.1 ∧ f.2.2.1 < 15))]
    dsimp only
    refine ⟨hs2.1, hs2.2, hm2.1, hm2.2, hh2.1, hh2.2, by omega, by omega, hd2.1, ?_⟩
    rw [show f.2.1 - 12 = 1 from by omega]
    rw [h13'] at hd2
    omega
  · rw [if_neg h13]
    dsimp only
    rw [rollMonDn_spec f.1 f.2.1 f.2.2.2 hwin.1]
    by_cases h0 : f.2.1 < 1
    · rw [if_pos h0]
      dsimp only
      have h0' : f.2.1 = 0 := by omega
      have halias := dim_zero_alias f.1
      rw [if_neg (by omega : ¬((f.1 - 1) = 1582 ∧ (f.2.1 + 12) = 10
        ∧ 4 < f.2.2.1 ∧ f.2.2.1 < 15))]
      dsimp only
      refine ⟨hs2.1, hs2.2, hm2.1, hm2.2, hh2.1, hh2.2, by omega, by omega, hd2.1, ?_⟩
      rw [show f.2.1 + 12 = 12 from by omega]
      rw [h0'] at hd2
      omega
    · rw [if_neg h0]
      dsimp only
      by_cases hgap : f.1 = 1582 ∧ f.2.1 = 10 ∧ 4 < f.2.2.1 ∧ f.2.2.1 < 15
      · rw [if_pos hgap]
        dsimp only
        obtain ⟨hgy, hgm, hg4, hg15⟩ := hgap
        refine ⟨hs2.1, hs2.2, hm2.1, hm2.2, hh2.1, hh2.2, by omega, by omega,
          by norm_num, ?_⟩
        rw [hgy, hgm]
        decide
      · rw [if_neg hgap]
        dsimp only
        exact ⟨hs2.1, hs2.2, hm2.1, hm2.2, hh2.1, hh2.2, by omega, by omega, hd2.1, hd2.2⟩

/-- C5: if the carry/borrow passes land on year 1582, month 10, with a day
strictly between 4 and 15, the day is snapped to 15 and the change flag is
forced to true. -/
theorem claim_C5 (oy om od oh omin os : ℤ)
    (hy : (rolloverPreGap oy om od oh omin os).1 = 1582)
    (hmth : (rolloverPreGap oy om od oh omin os).2.1 = 10)
    (hd4 : 4 < (rolloverPreGap oy om od oh omin os).2.2.1)
    (hd15 : (rolloverPreGap oy om od oh omin os).2.2.1 < 15) :
    (changeDateTimeForRollover oy om od oh omin os).1 = true ∧
    (changeDateTimeForRollover oy om od oh omin os).2
      = (1582, 10, 15, (rolloverPreGap oy om od oh omin os).2.2.2.1,
          (rolloverPreGap oy om od oh omin os).2.2.2.2.1,
          (rolloverPreGap oy om od oh omin os).2.2.2.2.2.1) := by
  unfold changeDateTimeForRollover
  rw [if_pos ⟨hy, hmth, hd4, hd15⟩]
  exact ⟨rfl, by rw [hy, hmth]⟩

/-- Witness for C5: hour 24 on 1582-10-09 rolls to day 10, inside the gap,
and is snapped to 1582-10-15. -/
theorem claim_C5_witness :
    changeDateTimeForRollover 1582 10 9 24 0 0 = (true, (1582, 10, 15, 0, 0, 0)) := by
  have hs1 : rollSecUp 0 0 false = (0, 0, false) := by
    rw [rollSecUp, if_neg (by norm_num)]
  have hs2 : rollSecDn 0 0 false = (0, 0, false) := by
    rw [rollSecDn, if_neg (by norm_num)]
  have hm1 : rollMinUp 0 24 false = (0, 24, false) := by
    rw [rollMinUp, if_neg (by norm_num)]
  have hm2 : rollMinDn 0 24 false = (0, 24, false) := by
    rw [rollMinDn, if_neg (by norm_num)]
  have hh1 : rollHourUp 24 9 false = (0, 10, true) := by
    rw [rollHourUp, if_pos (by norm_num)]
    rw [show (24:ℤ) - 24 = 0 from by norm_num, show (9:ℤ) + 1 = 10 from by norm_num]
    rw [rollHourUp, if_neg (by norm_num)]
  have hh2 : rollHourDn 0 10 true = (0, 10, true) := by
    rw [rollHourDn, if_neg (by norm_num)]
  have hd1 : rollDayUp 1582 10 10 true = (1582, 10, 10, true) := by
    rw [rollDayUp, if_neg (show ¬numberOfDaysInMonthInYear 10 1582 < 10 from by decide)]
  have hd2 : rollDayDn 1582 10 10 true = (1582, 10, 10, true) := by
    rw [rollDayDn, if_neg (by norm_num)]
  have hmo1 : rollMonUp 1582 10 true = (1582, 10, true) := by
    rw [rollMonUp, if_neg (by norm_num)]
  have hmo2 : rollMonDn 1582 10 true = (1582, 10, true) := by
    rw [rollMonDn, if_neg (by norm_num)]
  have hpre : rolloverPreGap 1582 10 9 24 0 0 = (1582, 10, 10, 0, 0, 0, true) := by
    simp only [rolloverPreGap, hs1, hs2, hm1, hm2, hh1, hh2, hd1, hd2, hmo1, hmo2]
  have h := claim_C5 1582 10 9 24 0 0 (by rw [hpre]) (by rw [hpre])
    (by rw [hpre]; norm_num) (by rw [hpre]; norm_num)
  have h2 := h.2
  rw [hpre] at h2
  exact Prod.ext h.1 h2

/-- C10: the C wrapper writes the six result locations exactly when it
returns true; on a false return the locations keep their prior values. -/
theorem claim_C10 (oy om od oh omin os : ℤ) (init : ℤ × ℤ × ℤ × ℤ × ℤ × ℤ) :
    ((changeDateTimeForRolloverWrite oy om od oh omin os init).1 = false →
      (changeDateTimeForRolloverWrite oy om od oh omin os init).2 = init) ∧
    ((changeDateTimeForRolloverWrite oy om od oh omin os init).1 = true →
      (changeDateTimeForRolloverWrite oy om od oh omin os init).2
        = (changeDateTimeForRollover oy om od oh omin os).2) := by
  unfold changeDateTimeForRolloverWrite
  constructor <;> intro h
  · simp only at h
    simp only [h, if_false, Bool.false_eq_true]
  · simp only at h
    simp only [h, if_true]

/-- Witness for C10: an already-valid input returns false and leaves the
output locations untouched. -/
theorem claim_C10_witness :
    changeDateTimeForRolloverWrite 2024 1 15 10 30 30 (0, 0, 0, 0, 0, 0)
      = (false, (0, 0, 0, 0, 0, 0)) := by
  have hs1 : rollSecUp 30 30 false = (30, 30, false) := by
    rw [rollSecUp, if_neg (by norm_num)]
  have hs2 : rollSecDn 30 30 false = (30, 30, false) := by
    rw [rollSecDn, if_neg (by norm_num)]
  have hm1 : rollMinUp 30 10 false = (30, 10, false) := by
    rw [rollMinUp, if_neg (by norm_num)]
  have hm2 : rollMinDn 30 10 false = (30, 10, false) := by
    rw [rollMinDn, if_neg (by norm_num)]
  have hh1 : rollHourUp 10 15 false = (10, 15, false) := by
    rw [rollHourUp, if_neg (by norm_num)]
  have hh2 : rollHourDn 10 15 false = (10, 15, false) := by
    rw [rollHourDn, if_neg (by norm_num)]
  have hd1 : rollDayUp 2024 1 15 false = (2024, 1, 15, false) := by
    rw [rollDayUp, if_neg (show ¬numberOfDaysInMonthInYear 1 2024 < 15 from by decide)]
  have hd2 : rollDayDn 2024 1 15 false = (2024, 1, 15, false) := by
    rw [rollDayDn, if_neg (by norm_num)]
  have hmo1 : rollMonUp 2024 1 false = (2024, 1, false) := by
    rw [rollMonUp, if_neg (by norm_num)]
  have hmo2 : rollMonDn 2024 1 false = (2024, 1, false) := by
    rw [rollMonDn, if_neg (by norm_num)]
  have hpre : rolloverPreGap 2024 1 15 10 30 30 = (2024, 1, 15, 10, 30, 30, false) := by
    simp only [rolloverPreGap, hs1, hs2, hm1, hm2, hh1, hh2, hd1, hd2, hmo1, hmo2]
  have hflag : (changeDateTimeForRollover 2024 1 15 10 30 30).1 = false := by
    simp only [changeDateTimeForRollover, hpre]
    rw [if_neg (by norm_num)]
  have h := (claim_C10 2024 1 15 10 30 30 (0, 0, 0, 0, 0, 0)).1 hflag
  exact Prod.ext hflag h

/-- C4 witness: the specification's example input converges to the valid
date/time 2025-02-02 02:02:01 with the change flag set. -/
theorem claim_C4_witness :
    changeDateTimeForRollover 2024 13 32 25 61 61 = (true, (2025, 2, 2, 2, 2, 1)) ∧
    1 ≤ (changeDateTimeForRollover 2024 13 32 25 61 61).2.2.2.1 ∧
    (changeDateTimeForRollover 2024 13 32 25 61 61).2.2.2.1
      ≤ numberOfDaysInMonthInYear (changeDateTimeForRollover 2024 13 32 25 61 61).2.2.1
          (changeDateTimeForRollover 2024 13 32 25 61 61).2.1 := by
  have hs1 : rollSecUp 61 61 false = (1, 62, true) := by
    rw [rollSecUp, if_pos (by norm_num)]
    rw [show (61:ℤ) - 60 = 1 from by norm_num, show (61:ℤ) + 1 = 62 from by norm_num]
    rw [rollSecUp, if_neg (by norm_num)]
  have hs2 : rollSecDn 1 62 true = (1, 62, true) := by
    rw [rollSecDn, if_neg (by norm_num)]
  have hm1 : rollMinUp 62 25 true = (2, 26, true) := by
    rw [rollMinUp, if_pos (by norm_num)]
    rw [show (62:ℤ) - 60 = 2 from by norm_num, show (25:ℤ) + 1 = 26 from by norm_num]
    rw [rollMinUp, if_neg (by norm_num)]
  have hm2 : rollMinDn 2 26 true = (2, 26, true) := by
    rw [rollMinDn, if_neg (by norm_num)]
  have hh1 : rollHourUp 26 32 true = (2, 33, true) := by
    rw [rollHourUp, if_pos (by norm_num)]
    rw [show (26:ℤ) - 24 = 2 from by norm_num, show (32:ℤ) + 1 = 33 from by norm_num]
    rw [rollHourUp, if_neg (by norm_num)]
  have hh2 : rollHourDn 2 33 true = (2, 33, true) := by
    rw [rollHourDn, if_neg (by norm_num)]
  have hd1 : rollDayUp 2024 13 33 true = (2025, 2, 2, true) := by
    rw [rollDayUp, if_pos (show numberOfDaysInMonthInYear 13 2024 < 33 from by decide)]
    simp only
    rw [if_pos (by norm_num)]
    rw [show (2024:ℤ) + 1 = 2025 from by norm_num, show (13:ℤ) + 1 - 12 = 2 from by norm_num,
      show (33:ℤ) - numberOfDaysInMonthInYear 13 2024 = 2 from by decide]
    rw [rollDayUp, if_neg (show ¬numberOfDaysInMonthInYear 2 2025 < 2 from by decide)]
  have hd2 : rollDayDn 2025 2 2 true = (2025, 2, 2, true) := by
    rw [rollDayDn, if_neg (by norm_num)]
  have hmo1 : rollMonUp 2025 2 true = (2025, 2, true) := by
    rw [rollMonUp, if_neg (by norm_num)]
  have hmo2 : rollMonDn 2025 2 true = (2025, 2, true) := by
    rw [rollMonDn, if_neg (by norm_num)]
  have hpre : rolloverPreGap 2024 13 32 25 61 61 = (2025, 2, 2, 2, 2, 1, true) := by
    simp only [rolloverPreGap, hs1, hs2, hm1, hm2, hh1, hh2, hd1, hd2, hmo1, hmo2]
  have hev : changeDateTimeForRollover 2024 13 32 25 61 61 = (true, (2025, 2, 2, 2, 2, 1)) := by
    simp only [changeDateTimeForRollover, hpre]
    rw [if_neg (by norm_num)]
  have h := claim_C4 2024 13 32 25 61 61 (by rw [hev])
  exact ⟨hev, h.2.2.2.2.2.2.2.2.1, h.2.2.2.2.2.2.2.2.2⟩

/-- C6 counterexample: at JD 2451545 (2000-01-01 noon) the decimal year the
code feeds into the Espenak-Meeus polynomial is `yearDecCode 2000 1 1 = 2000`
(the C expression `day/31` is an integer division, 0 for day 1), while the
specification's real-valued `day/31` gives `2000 + 61/22692`; the resulting
ΔT values differ, so the code does not compute the spec's formula. -/
theorem claim_C6_counterexample :
    getDateFromJulianDay ((2451545 : ℤ) : ℚ) = (2000, 1, 1) ∧
    getDeltaTByEspenakMeeus ((2451545 : ℤ) : ℚ) = decYear2DeltaT (yearDecCode 2000 1 1) ∧
    yearDecCode 2000 1 1 = 2000 ∧
    yearDecSpec 2000 1 1 = 2000 + 61 / 22692 ∧
    decYear2DeltaT (yearDecCode 2000 1 1) ≠ decYear2DeltaT (yearDecSpec 2000 1 1) := by
  have hfl : ⌊((2451545 : ℤ) : ℚ) + 1/2⌋ = 2451545 := by
    rw [Int.floor_eq_iff]
    norm_num
  have hdate : getDateFromJulianDay ((2451545 : ℤ) : ℚ) = (2000, 1, 1) := by
    rw [getDateFromJulianDay, hfl]
    decide
  have hcode : yearDecCode 2000 1 1 = 2000 := by
    norm_num [yearDecCode, cdiv]
  have hspec : yearDecSpec 2000 1 1 = 2000 + 61 / 22692 := by
    norm_num [yearDecSpec]
  refine ⟨hdate, ?_, hcode, hspec, ?_⟩
  · simp only [getDeltaTByEspenakMeeus, hdate]
  · rw [hcode, hspec]
    unfold decYear2DeltaT
    norm_num

/-- C6 (amended): both decimal-year ΔT models compute the decimal year of the
recovered calendar date as `year + ((month-1)*30.5 + day/31*30.5)/366` where
`day/31` is the C INTEGER division (1 when the day of month is 31, 0 for days
1..30), not a real-valued division. -/
theorem claim_C6 (jd : ℚ) (y m d : ℤ) (hymd : getDateFromJulianDay jd = (y, m, d))
    (hd1 : 1 ≤ d) (hd31 : d ≤ 31) :
    getDeltaTByEspenakMeeus jd
      = decYear2DeltaT ((y : ℚ) + (((m : ℚ) - 1) * 30.5
          + (((if d = 31 then 1 else 0 : ℤ)) : ℚ) * 30.5) / 366) ∧
    getDeltaTByStephensonMorrison1984 jd
      = (let u : ℚ := ((y : ℚ) + (((m : ℚ) - 1) * 30.5
            + (((if d = 31 then 1 else 0 : ℤ)) : ℚ) * 30.5) / 366 - 1800) / 100
         if 948 < y ∧ y ≤ 1600 then 25.5 * u^2
         else if -391 < y ∧ y ≤ 948 then 1360.0 + 320 * u + 44.3 * u^2
         else 0) := by
  have hcd : cdiv d 31 = if d = 31 then 1 else 0 := by
    unfold cdiv
    split_ifs <;> omega
  have hyd : yearDecCode y m d = (y : ℚ) + (((m : ℚ) - 1) * 30.5
      + (((if d = 31 then 1 else 0 : ℤ)) : ℚ) * 30.5) / 366 := by
    rw [yearDecCode, hcd]
  constructor
  · simp only [getDeltaTByEspenakMeeus, hymd, hyd]
  · simp only [getDeltaTByStephensonMorrison1984, hymd, hyd]

/-- Witness for C6 at JD 2451545 = 2000-01-01: day 1, so the integer `day/31`
contributes 0 and the decimal year is exactly 2000. -/
theorem claim_C6_witness :
    getDeltaTByEspenakMeeus ((2451545 : ℤ) : ℚ) = decYear2DeltaT 2000 := by
  have hfl : ⌊((2451545 : ℤ) : ℚ) + 1/2⌋ = 2451545 := by
    rw [Int.floor_eq_iff]
    norm_num
  have hdate : getDateFromJulianDay ((2451545 : ℤ) : ℚ) = (2000, 1, 1) := by
    rw [getDateFromJulianDay, hfl]
    decide
  have h := (claim_C6 ((2451545 : ℤ) : ℚ) 2000 1 1 hdate (by norm_num) (by norm_num)).1
  rw [h]
  norm_num

/-- Witness for C1 at 2000-01-01 12:30:45. -/
theorem claim_C1_witness :
    (getJDFromDate 2000 1 1 12 30 45).1 = true ∧
    getDateFromJulianDay (getJDFromDate 2000 1 1 12 30 45).2 = (2000, 1, 1) ∧
    getTimeFromJulianDay (getJDFromDate 2000 1 1 12 30 45).2 = (12, 30, 45) :=
  claim_C1 2000 1 1 12 30 45 (by decide) (by decide) (by decide) (by decide)
    (by decide) (by decide)

/-- Witness for C2: the four concrete cutover values and, at JD 2299200, the
skipped date 1582-10-10 is never produced. -/
theorem claim_C2_witness :
    getDateFromJulianDay (2299161 : ℚ) = (1582, 10, 15) ∧
    getDateFromJulianDay (2299160 : ℚ) = (1582, 10, 4) ∧
    getJDFromDate 1582 10 15 12 0 0 = (true, (2299161 : ℚ)) ∧
    getJDFromDate 1582 10 4 12 0 0 = (true, (2299160 : ℚ)) ∧
    getDateFromJulianDay (2299200 : ℚ) ≠ (1582, 10, 10) := by
  have h := claim_C2 2299200 10 (by norm_num) (by norm_num)
  exact ⟨h.2.2.1, h.2.2.2.1, h.2.2.2.2.1, h.2.2.2.2.2.1, h.2.2.2.2.2.2⟩


/-- C3: February has 29 days exactly under the Julian divisible-by-4 rule up
to 1582 and under the Gregorian century rule afterwards, with the four
spot-check years of the specification. -/
theorem claim_C3 (y : ℤ) :
    (y ≤ 1582 → numberOfDaysInMonthInYear 2 y = if 4 ∣ y then 29 else 28) ∧
    (1582 < y → numberOfDaysInMonthInYear 2 y
      = if 4 ∣ y ∧ (¬(100 ∣ y) ∨ 400 ∣ y) then 29 else 28) ∧
    numberOfDaysInMonthInYear 2 2000 = 29 ∧
    numberOfDaysInMonthInYear 2 1900 = 28 ∧
    numberOfDaysInMonthInYear 2 1600 = 29 ∧
    numberOfDaysInMonthInYear 2 1500 = 29 := by
  have h4 : cmod y 4 = 0 ↔ 4 ∣ y := by
    unfold cmod cdiv
    split_ifs <;> omega
  have h100 : cmod y 100 = 0 ↔ 100 ∣ y := by
    unfold cmod cdiv
    split_ifs <;> omega
  have h400 : cmod y 400 = 0 ↔ 400 ∣ y := by
    unfold cmod cdiv
    split_ifs <;> omega
  have hdim : numberOfDaysInMonthInYear 2 y = dimVal 2 y := dim_eq_dimVal 2 y (by norm_num)
  refine ⟨?_, ?_, by decide, by decide, by decide, by decide⟩
  · intro hy
    rw [hdim]
    unfold dimVal
    rw [if_neg (by norm_num), if_neg (by norm_num), if_pos rfl, if_neg (by omega : ¬ 1582 < y)]
    simp only [h4]
  · intro hy
    rw [hdim]
    unfold dimVal
    rw [if_neg (by norm_num), if_neg (by norm_num), if_pos rfl, if_pos hy]
    simp only [h4, h100, h400]
    split_ifs <;> first | rfl | omega

/-- Witness for C3 at the years where the two leap rules diverge. -/
theorem claim_C3_witness :
    numberOfDaysInMonthInYear 2 1500 = 29 ∧ numberOfDaysInMonthInYear 2 1900 = 28 := by
  constructor
  · have h := (claim_C3 1500).1 (by norm_num)
    rw [h]
    norm_num
  · have h := (claim_C3 1900).2.1 (by norm_num)
    rw [h]
    norm_num

/-- C9: for recovered years in [1900, 1990) the final Meeus & Simons segment,
whose guard `1900 <= year <= 2000` is evaluated last, overwrites the earlier
1900-1940 and 1940-1990 assignments. -/
theorem claim_C9 (jd : ℚ) (h1 : 1900 ≤ (getDateFromJulianDay jd).1)
    (h2 : (getDateFromJulianDay jd).1 < 1990) :
    getDeltaTByMeeusSimons jd =
      (let ymd := getDateFromJulianDay jd
       let u : ℚ := 0.05 + (yearDecCode ymd.1 ymd.2.1 ymd.2.2 - 2000) / 100
       60.8 + 82.0 * u + 188.0 * u^2 - 5034.0 * u^3) := by
  simp only [getDeltaTByMeeusSimons]
  rw [if_pos ⟨h1, by omega⟩]

/-- Witness for C9 at JD 2433283 = 1950-01-01, where the function returns the
final segment's value 520.69325 rather than the 1940-1990 segment's. -/
theorem claim_C9_witness :
    getDeltaTByMeeusSimons ((2433283 : ℤ) : ℚ) = (2082773 : ℚ) / 4000 := by
  have hfl : ⌊((2433283 : ℤ) : ℚ) + 1/2⌋ = 2433283 := by
    rw [Int.floor_eq_iff]
    norm_num
  have hdate : getDateFromJulianDay ((2433283 : ℤ) : ℚ) = (1950, 1, 1) := by
    rw [getDateFromJulianDay, hfl]
    decide
  have h := claim_C9 ((2433283 : ℤ) : ℚ) (by rw [hdate]; norm_num) (by rw [hdate]; norm_num)
  rw [h, hdate]
  norm_num [yearDecCode, cdiv]

set_option maxRecDepth 100000 in
/-- C7: for recovered years in [1620, 2000) `getDeltaTByMeeus` linearly
interpolates the tenths-of-a-second table between entries `pos` and `pos + 1`,
`pos = (year - 1620)/2` by C integer division, dividing the result by 10. -/
theorem claim_C7 (jd : ℚ) (h1 : 1620 ≤ (getDateFromJulianDay jd).1)
    (h2 : (getDateFromJulianDay jd).1 < 2000) :
    getDeltaTByMeeus jd =
      (let ymd := getDateFromJulianDay jd
       let pos := cdiv (ymd.1 - 1620) 2
       (MeeusDeltaTTable.getD pos.toNat 0
         + (yearDecCode ymd.1 ymd.2.1 ymd.2.2 - (2 * pos + 1620)) * 0.5
           * (MeeusDeltaTTable.getD (pos.toNat + 1) 0 - MeeusDeltaTTable.getD pos.toNat 0))
        / 10.0) := by
  simp only [getDeltaTByMeeus]
  rw [if_neg (by omega), if_neg (by omega), if_pos h2]

/-- Witness for C7 at JD 2341973 = 1700-01-01: `pos = 40` and the value is the
table interpolation `(70 + 0·0.5·(70 - 70))/10 = 7`. -/
theorem claim_C7_witness :
    cdiv ((1700 : ℤ) - 1620) 2 = 40 ∧
    getDateFromJulianDay ((2341973 : ℤ) : ℚ) = (1700, 1, 1) ∧
    getDeltaTByMeeus ((2341973 : ℤ) : ℚ) = 7 := by
  have hfl : ⌊((2341973 : ℤ) : ℚ) + 1/2⌋ = 2341973 := by
    rw [Int.floor_eq_iff]
    norm_num
  have hdate : getDateFromJulianDay ((2341973 : ℤ) : ℚ) = (1700, 1, 1) := by
    rw [getDateFromJulianDay, hfl]
    decide
  refine ⟨by decide, hdate, ?_⟩
  have h := claim_C7 ((2341973 : ℤ) : ℚ) (by rw [hdate]; norm_num) (by rw [hdate]; norm_num)
  rw [h, hdate]
  show (MeeusDeltaTTable.getD (cdiv ((1700:ℤ) - 1620) 2).toNat 0
      + (yearDecCode 1700 1 1 - (2 * cdiv ((1700:ℤ) - 1620) 2 + 1620)) * 0.5
      * (MeeusDeltaTTable.getD ((cdiv ((1700:ℤ) - 1620) 2).toNat + 1) 0
        - MeeusDeltaTTable.getD (cdiv ((1700:ℤ) - 1620) 2).toNat 0)) / 10.0 = 7
  rw [show (cdiv ((1700:ℤ) - 1620) 2).toNat = 40 from by decide,
    show cdiv ((1700:ℤ) - 1620) 2 = 40 from by decide,
    show (40:ℕ) + 1 = 41 from rfl,
    show MeeusDeltaTTable.getD (40:ℕ) 0 = 70 from by decide,
    show MeeusDeltaTTable.getD (41:ℕ) 0 = 70 from by decide,
    show yearDecCode 1700 1 1 = 1700 from by norm_num [yearDecCode, cdiv]]
  norm_num


/-- Core of the C8 equivalence: for any sign flag and remaining input, the
parser tail succeeds exactly when the amended pattern tail matches. -/
theorem iso_tail (neg : Bool) (s1 : List Char) :
    (let (yd, s2) := s1.span (fun c : Char => c.isDigit)
     if yd = [] then none else
     match s2 with
     | c1 :: r1 =>
       if c1 = ':' ∨ c1 = '-' then
         match r1 with
         | m1 :: m2 :: c2 :: r2 =>
           if m1.isDigit ∧ m2.isDigit ∧ (c2 = ':' ∨ c2 = '-') then
             match r2 with
             | d1 :: d2 :: ct :: r3 =>
               if d1.isDigit ∧ d2.isDigit ∧ ct = 'T' then
                 match r3 with
                 | h1 :: h2 :: r4 =>
                   let hourPart : Option (ℤ × List Char) :=
                     if h1.isDigit ∧ h2.isDigit then
                       match r4 with
                       | c3 :: r5 => if c3 = ':' then some (digitsVal [h1, h2], r5) else none
                       | [] => none
                     else if h1.isDigit ∧ h2 = ':' then some (digitsVal [h1], r4)
                     else none
                   match hourPart with
                   | some (hv, r5) =>
                     match r5 with
                     | n1 :: n2 :: c4 :: s1c :: s2c :: r6 =>
                       if n1.isDigit ∧ n2.isDigit ∧ c4 = ':' ∧ s1c.isDigit ∧ s2c.isDigit then
                         let base :=
                           (if neg then -digitsVal yd else digitsVal yd,
                             digitsVal [m1, m2], digitsVal [d1, d2], hv,
                             digitsVal [n1, n2], (digitsVal [s1c, s2c] : ℚ))
                         match r6 with
                         | [] => some base
                         | dot :: fr =>
                           if dot = '.' ∧ fr.all (fun c => c.isDigit) then
                             some (base.1, base.2.1, base.2.2.1, base.2.2.2.1,
                               base.2.2.2.2.1, base.2.2.2.2.2 + fracVal fr)
                           else none
                       else none
                     | _ => none
                   | none => none
                 | _ => none
               else none
             | _ => none
           else none
         | _ => none
       else none
     | [] => none).isSome
    = (let (yd, s2) := s1.span (fun c : Char => c.isDigit)
       if yd = [] then false else
       match s2 with
       | c1 :: m1 :: m2 :: c2 :: d1 :: d2 :: ct :: r3 =>
         if (c1 = ':' ∨ c1 = '-') ∧ m1.isDigit ∧ m2.isDigit ∧ (c2 = ':' ∨ c2 = '-') ∧
             d1.isDigit ∧ d2.isDigit ∧ ct = 'T' then
           let afterHour : Option (List Char) :=
             match r3 with
             | h1 :: h2 :: r4 =>
               if h1.isDigit ∧ h2.isDigit then
                 match r4 with
                 | c3 :: r5 => if c3 = ':' then some r5 else none
                 | [] => none
               else if h1.isDigit ∧ h2 = ':' then some r4
               else none
             | _ => none
           match afterHour with
           | some (n1 :: n2 :: c4 :: s1c :: s2c :: r6) =>
             if n1.isDigit ∧ n2.isDigit ∧ c4 = ':' ∧ s1c.isDigit ∧ s2c.isDigit then
               match r6 with
               | [] => true
               | dot :: fr => dot = '.' ∧ fr.all (fun c => c.isDigit)
             else false
           | _ => false
         else false
       | _ => false) := by
  rcases hsp : s1.span (fun c : Char => c.isDigit) with ⟨yd, s2⟩
  dsimp only
  by_cases hyd : yd = []
  · simp only [if_pos hyd, Option.isSome_none]
  · simp only [if_neg hyd]
    rcases s2 with _ | ⟨c1, s2⟩
    · rfl
    rcases s2 with _ | ⟨m1, s2⟩
    · dsimp only; split_ifs <;> rfl
    rcases s2 with _ | ⟨m2, s2⟩
    · dsimp only; split_ifs <;> rfl
    rcases s2 with _ | ⟨c2, s2⟩
    · dsimp only; split_ifs <;> rfl
    rcases s2 with _ | ⟨d1, s2⟩
    · dsimp only; split_ifs <;> rfl
    rcases s2 with _ | ⟨d2, s2⟩
    · dsimp only; split_ifs <;> rfl
    rcases s2 with _ | ⟨ct, r3⟩
    · dsimp only; split_ifs <;> rfl
    dsimp only
    by_cases h1 : c1 = ':' ∨ c1 = '-'
    · simp only [if_pos h1]
      by_cases hm : m1.isDigit ∧ m2.isDigit ∧ (c2 = ':' ∨ c2 = '-')
      · simp only [if_pos hm]
        by_cases hd : d1.isDigit ∧ d2.isDigit ∧ ct = 'T'
        · simp only [if_pos hd,
            if_pos (show (c1 = ':' ∨ c1 = '-') ∧ m1.isDigit ∧ m2.isDigit ∧
                (c2 = ':' ∨ c2 = '-') ∧ d1.isDigit ∧ d2.isDigit ∧ ct = 'T' from
              ⟨h1, hm.1, hm.2.1, hm.2.2, hd.1, hd.2.1, hd.2.2⟩)]
          rcases r3 with _ | ⟨e1, r3⟩
          · dsimp only; rfl
          rcases r3 with _ | ⟨e2, r4⟩
          · dsimp only; rfl
          dsimp only
          by_cases hdd : e1.isDigit ∧ e2.isDigit
          · simp only [if_pos hdd]
            rcases r4 with _ | ⟨c3, L⟩
            · dsimp only; rfl
            dsimp only
            by_cases hc3 : c3 = ':'
            · simp only [if_pos hc3]
              rcases L with _ | ⟨n1, L⟩
              · dsimp only; rfl
              rcases L with _ | ⟨n2, L⟩
              · dsimp only; rfl
              rcases L with _ | ⟨c4, L⟩
              · dsimp only; rfl
              rcases L with _ | ⟨t1, L⟩
              · dsimp only; rfl
              rcases L with _ | ⟨t2, r6⟩
              · dsimp only; rfl
              dsimp only
              by_cases hC : n1.isDigit ∧ n2.isDigit ∧ c4 = ':' ∧ t1.isDigit ∧ t2.isDigit
              · simp only [if_pos hC]
                rcases r6 with _ | ⟨dot, fr⟩
                · rfl
                · dsimp only
                  by_cases hD : dot = '.' ∧ fr.all (fun c => c.isDigit)
                  · simp only [if_pos hD]
                    simp [hD]
                  · simp only [if_neg hD, Option.isSome_none]
                    exact (decide_eq_false hD).symm
              · simp only [if_neg hC]
                rfl
            · simp only [if_neg hc3]
              rfl
          · simp only [if_neg hdd]
            by_cases hcl : e1.isDigit ∧ e2 = ':'
            · simp only [if_pos hcl]
              generalize r4 = L
              rcases L with _ | ⟨n1, L⟩
              · dsimp only; rfl
              rcases L with _ | ⟨n2, L⟩
              · dsimp only; rfl
              rcases L with _ | ⟨c4, L⟩
              · dsimp only; rfl
              rcases L with _ | ⟨t1, L⟩
              · dsimp only; rfl
              rcases L with _ | ⟨t2, r6⟩
              · dsimp only; rfl
              dsimp only
              by_cases hC : n1.isDigit ∧ n2.isDigit ∧ c4 = ':' ∧ t1.isDigit ∧ t2.isDigit
              · simp only [if_pos hC]
                rcases r6 with _ | ⟨dot, fr⟩
                · rfl
                · dsimp only
                  by_cases hD : dot = '.' ∧ fr.all (fun c => c.isDigit)
                  · simp only [if_pos hD]
                    simp [hD]
                  · simp only [if_neg hD, Option.isSome_none]
                    exact (decide_eq_false hD).symm
              · simp only [if_neg hC]
                rfl
            · simp only [if_neg hcl]
              rfl
        · simp only [if_neg hd,
            if_neg (show ¬((c1 = ':' ∨ c1 = '-') ∧ m1.isDigit ∧ m2.isDigit ∧
                (c2 = ':' ∨ c2 = '-') ∧ d1.isDigit ∧ d2.isDigit ∧ ct = 'T') from
              fun hc => hd hc.2.2.2.2)]
          rfl
      · simp only [if_neg hm,
          if_neg (show ¬((c1 = ':' ∨ c1 = '-') ∧ m1.isDigit ∧ m2.isDigit ∧
              (c2 = ':' ∨ c2 = '-') ∧ d1.isDigit ∧ d2.isDigit ∧ ct = 'T') from
            fun hc => hm ⟨hc.2.1, hc.2.2.1, hc.2.2.2.1⟩)]
        rfl
    · simp only [if_neg h1,
        if_neg (show ¬((c1 = ':' ∨ c1 = '-') ∧ m1.isDigit ∧ m2.isDigit ∧
            (c2 = ':' ∨ c2 = '-') ∧ d1.isDigit ∧ d2.isDigit ∧ ct = 'T') from
          fun hc => h1 hc.1)]
      rfl

/-- C8 counterexample: the parser accepts "2000-01-01T5:00:00", whose hour
field has a single digit, while the specification's pattern (two-digit hour
`HH`) rejects it; the two-digit variant is accepted by both. -/
theorem claim_C8_counterexample :
    (getDateTimeFromISO8601String
      ['2','0','0','0','-','0','1','-','0','1','T','5',':','0','0',':','0','0']).isSome
        = true ∧
    specISO8601Pattern
      ['2','0','0','0','-','0','1','-','0','1','T','5',':','0','0',':','0','0'] = false ∧
    specISO8601Pattern
      ['2','0','0','0','-','0','1','-','0','1','T','0','5',':','0','0',':','0','0'] = true := by
  refine ⟨by decide, by decide, by decide⟩

/-- C8 (amended): the parser accepts exactly the strings of the pattern
±YYYY[:-]MM[:-]DDT H?H:MM:SS[.fff] (hour one or two digits), and on every
rejected string `getJulianDayFromISO8601String` reports `ok = false` with the
default value 0.0 instead of aborting. -/
theorem claim_C8 (s : List Char) :
    (getDateTimeFromISO8601String s).isSome = amendedISO8601Pattern s ∧
    (amendedISO8601Pattern s = false → getJulianDayFromISO8601String s = (false, 0)) := by
  have heq : (getDateTimeFromISO8601String s).isSome = amendedISO8601Pattern s := by
    unfold getDateTimeFromISO8601String amendedISO8601Pattern
    rcases s with _ | ⟨c, r⟩
    · exact iso_tail false []
    · dsimp only
      by_cases h1 : c = '-'
      · rw [if_pos h1, if_pos (Or.inl h1)]
        exact iso_tail true r
      · rw [if_neg h1]
        by_cases h2 : c = '+'
        · rw [if_pos h2, if_pos (Or.inr h2)]
          exact iso_tail false r
        · rw [if_neg h2, if_neg (show ¬(c = '-' ∨ c = '+') from fun hc => hc.elim h1 h2)]
          exact iso_tail false (c :: r)
  refine ⟨heq, fun hf => ?_⟩
  have hn : getDateTimeFromISO8601String s = none := by
    cases hx : getDateTimeFromISO8601String s with
    | none => rfl
    | some v =>
      rw [hx, hf] at heq
      simp at heq
  unfold getJulianDayFromISO8601String
  rw [hn]

/-- Witness for C8: the malformed string "a" is rejected by the amended
pattern and yields `(false, 0.0)` from the JD wrapper. -/
theorem claim_C8_witness :
    amendedISO8601Pattern ['a'] = false ∧
    getJulianDayFromISO8601String ['a'] = (false, 0) :=
  ⟨by decide, (claim_C8 ['a']).2 (by decide)⟩

end StelUtils
